import Mathlib

/-!
Fuel calculator: composition recast and lower heating value.

A shallow embedding of `src/main.go` (`parsePercent`, `calcTask1`, `calcTask2`).

Numbers.  The Go code computes in `float64`.  The embedding keeps the three
special values of that type (the two infinities and NaN, all of which
`strconv.ParseFloat` can return) and computes on the finite values in exact
rational arithmetic: no rounding, no overflow of a finite result, no signed zero.
A literal that `ParseFloat` rejects as out of range is rejected here too.

Text.  A Go string is embedded as a Lean `String`, read as its list of code points.

Results.  Go's `(*ResultData, string)` is embedded as `Option ResultData × String`:
`none` is the nil pointer, the empty string is "no error".
-/

namespace FuelCalc

/-! ## Numbers -/

/-- A `float64` value with exact finite part. -/
inductive F64 where
  | fin (q : ℚ)
  | posInf
  | negInf
  | nan
deriving DecidableEq

namespace F64

/-- Unary minus. -/
def neg : F64 → F64
  | fin a => fin (-a)
  | posInf => negInf
  | negInf => posInf
  | nan => nan

/-- Addition: opposite infinities give NaN, NaN propagates. -/
def add : F64 → F64 → F64
  | fin a, fin b => fin (a + b)
  | fin _, posInf => posInf
  | fin _, negInf => negInf
  | posInf, fin _ => posInf
  | posInf, posInf => posInf
  | posInf, negInf => nan
  | negInf, fin _ => negInf
  | negInf, negInf => negInf
  | negInf, posInf => nan
  | nan, _ => nan
  | fin _, nan => nan
  | posInf, nan => nan
  | negInf, nan => nan

/-- Subtraction is addition of the negated operand. -/
def sub (x y : F64) : F64 := add x (neg y)

/-- The infinity of the sign of `s`, NaN when `s = 0`. -/
def infOfSign (s : ℚ) : F64 :=
  if s = 0 then nan else if 0 < s then posInf else negInf

/-- Multiplication: infinity times zero gives NaN. -/
def mul : F64 → F64 → F64
  | fin a, fin b => fin (a * b)
  | fin a, posInf => infOfSign a
  | fin a, negInf => infOfSign (-a)
  | posInf, fin b => infOfSign b
  | negInf, fin b => infOfSign (-b)
  | posInf, posInf => posInf
  | posInf, negInf => negInf
  | negInf, posInf => negInf
  | negInf, negInf => posInf
  | nan, _ => nan
  | fin _, nan => nan
  | posInf, nan => nan
  | negInf, nan => nan

/-- Division.  A finite value divided by zero is the infinity of the sign of the
dividend (the zero divisor counts as positive), `0 / 0` and `inf / inf` are NaN. -/
def div : F64 → F64 → F64
  | fin a, fin b => if b = 0 then infOfSign a else fin (a / b)
  | fin _, posInf => fin 0
  | fin _, negInf => fin 0
  | posInf, fin b => if b < 0 then negInf else posInf
  | negInf, fin b => if b < 0 then posInf else negInf
  | posInf, posInf => nan
  | posInf, negInf => nan
  | negInf, posInf => nan
  | negInf, negInf => nan
  | nan, _ => nan
  | fin _, nan => nan
  | posInf, nan => nan
  | negInf, nan => nan

/-- Comparison `x <= y`; false as soon as one side is NaN. -/
def ble : F64 → F64 → Bool
  | fin a, fin b => decide (a ≤ b)
  | fin _, posInf => true
  | fin _, negInf => false
  | posInf, fin _ => false
  | posInf, posInf => true
  | posInf, negInf => false
  | negInf, fin _ => true
  | negInf, posInf => true
  | negInf, negInf => true
  | nan, _ => false
  | fin _, nan => false
  | posInf, nan => false
  | negInf, nan => false

/-- Comparison `x < y`; false as soon as one side is NaN. -/
def blt : F64 → F64 → Bool
  | fin a, fin b => decide (a < b)
  | fin _, posInf => true
  | fin _, negInf => false
  | posInf, fin _ => false
  | posInf, posInf => false
  | posInf, negInf => false
  | negInf, fin _ => true
  | negInf, posInf => true
  | negInf, negInf => false
  | nan, _ => false
  | fin _, nan => false
  | posInf, nan => false
  | negInf, nan => false

instance : Add F64 := ⟨add⟩
instance : Sub F64 := ⟨sub⟩
instance : Mul F64 := ⟨mul⟩
instance : Div F64 := ⟨div⟩
instance : Neg F64 := ⟨neg⟩
instance : LE F64 := ⟨fun x y => ble x y = true⟩
instance : LT F64 := ⟨fun x y => blt x y = true⟩
instance (x y : F64) : Decidable (x ≤ y) := inferInstanceAs (Decidable (ble x y = true))
instance (x y : F64) : Decidable (x < y) := inferInstanceAs (Decidable (blt x y = true))

/-- A value is finite when it is neither an infinity nor NaN. -/
def isFinite : F64 → Bool
  | fin _ => true
  | _ => false

end F64

/-! ## Library functions used by `parsePercent`

`strings.TrimSpace`, `strings.ReplaceAll` and `strconv.ParseFloat` belong to the Go
standard library; they are embedded from their documented behaviour. -/

/-- The code points for which Go's `unicode.IsSpace` holds. -/
def isSpace (c : Char) : Bool :=
  let n := c.toNat
  n = 0x09 || n = 0x0A || n = 0x0B || n = 0x0C || n = 0x0D || n = 0x20 ||
  n = 0x85 || n = 0xA0 || n = 0x1680 || (0x2000 ≤ n && n ≤ 0x200A) ||
  n = 0x2028 || n = 0x2029 || n = 0x202F || n = 0x205F || n = 0x3000

/-- Leading and trailing white space removed, on a list of code points. -/
def trimSpaceChars (cs : List Char) : List Char :=
  ((cs.dropWhile isSpace).reverse.dropWhile isSpace).reverse

/-- Go's `strings.TrimSpace`. -/
def TrimSpace (s : String) : String := ⟨trimSpaceChars s.data⟩

/-- Go's `strings.ReplaceAll(s, ",", ".")`: every comma becomes a dot. -/
def ReplaceAll (s : String) : String :=
  ⟨s.data.map fun c => if c = ',' then '.' else c⟩

/-- Value of a decimal digit. -/
def digitVal (c : Char) : Option Nat :=
  if 48 ≤ c.toNat ∧ c.toNat ≤ 57 then some (c.toNat - 48) else none

/-- Value of a hexadecimal digit, in either case. -/
def hexDigitVal (c : Char) : Option Nat :=
  if 48 ≤ c.toNat ∧ c.toNat ≤ 57 then some (c.toNat - 48)
  else if 97 ≤ c.toNat ∧ c.toNat ≤ 102 then some (c.toNat - 87)
  else if 65 ≤ c.toNat ∧ c.toNat ≤ 70 then some (c.toNat - 55)
  else none

/-- An ASCII capital letter is mapped to its small letter, as `special` does. -/
def foldCase (c : Char) : Char :=
  if 65 ≤ c.toNat ∧ c.toNat ≤ 90 then Char.ofNat (c.toNat + 32) else c

/-- The special values `ParseFloat` recognises, ignoring case: an optionally signed
`inf` or `infinity`, and an unsigned `nan`. -/
def special (cs : List Char) : Option F64 :=
  let body (t : List Char) : Bool :=
    let l := t.map foldCase
    l = ['i', 'n', 'f'] || l = ['i', 'n', 'f', 'i', 'n', 'i', 't', 'y']
  match cs with
  | '+' :: t => if body t then some F64.posInf else none
  | '-' :: t => if body t then some F64.negInf else none
  | _ =>
    if body cs then some F64.posInf
    else if cs.map foldCase = ['n', 'a', 'n'] then some F64.nan
    else none

/-- The mantissa read so far: the digits as a number in the base, how many of them
followed the point, and whether a point and a digit were seen. -/
structure Mantissa where
  num : Nat := 0
  frac : Nat := 0
  sawdot : Bool := false
  sawdigits : Bool := false
deriving DecidableEq

/-- The mantissa loop of `readFloat`: digits, underscores and at most one point are
consumed; the rest of the text is returned. -/
def readMantissa (base : Nat) (dv : Char → Option Nat) :
    List Char → Mantissa → Mantissa × List Char
  | [], m => (m, [])
  | c :: cs, m =>
    if c = '_' then readMantissa base dv cs m
    else if c = '.' then
      if m.sawdot then (m, c :: cs)
      else readMantissa base dv cs { m with sawdot := true }
    else
      match dv c with
      | some d =>
        readMantissa base dv cs
          { m with num := m.num * base + d,
                   frac := if m.sawdot then m.frac + 1 else m.frac,
                   sawdigits := true }
      | none => (m, c :: cs)

/-- The digits of an exponent, underscores skipped; as in `readFloat` a digit is
only taken in while the number read so far is below 10000.  `none` when a
character is neither a digit nor an underscore. -/
def readExpDigits : List Char → Nat → Option Nat
  | [], e => some e
  | c :: cs, e =>
    if c = '_' then readExpDigits cs e
    else
      match digitVal c with
      | some d => readExpDigits cs (if e < 10000 then e * 10 + d else e)
      | none => none

/-- The exponent that follows the exponent letter: an optional sign and at least
one digit, up to the end of the text. -/
def readExponent (cs : List Char) : Option Int :=
  let go (neg : Bool) (t : List Char) : Option Int :=
    match t with
    | [] => none
    | c :: _ =>
      if (digitVal c).isSome then
        (readExpDigits t 0).map fun e => if neg then -(e : Int) else (e : Int)
      else none
  match cs with
  | '+' :: t => go false t
  | '-' :: t => go true t
  | _ => go false cs

/-- The scan of `underscoreOK` after the sign and the base mark: `saw` is the kind
of the last character (`0` a digit or base mark, `_` an underscore, `!` another). -/
def underscoreScan (hex : Bool) : List Char → Char → Bool
  | [], saw => saw != '_'
  | c :: cs, saw =>
    if (digitVal c).isSome || (hex && (hexDigitVal c).isSome) then
      underscoreScan hex cs '0'
    else if c = '_' then
      if saw != '0' then false else underscoreScan hex cs '_'
    else if saw = '_' then false
    else underscoreScan hex cs '!'

/-- Go's `underscoreOK`: an underscore stands only between digits, or between a
base mark and a digit. -/
def underscoreOK (cs : List Char) : Bool :=
  let t := match cs with
    | '-' :: t => t
    | '+' :: t => t
    | _ => cs
  match t with
  | '0' :: c :: r =>
    if c = 'x' ∨ c = 'X' then underscoreScan true r '0'
    else if c = 'b' ∨ c = 'B' ∨ c = 'o' ∨ c = 'O' then underscoreScan false r '0'
    else underscoreScan false t '^'
  | _ => underscoreScan false t '^'

/-- The number after the sign, exactly: `readFloat` without the sign, followed by
the conversion of mantissa and exponent.  `none` stands for a syntax error. -/
def readUnsigned (t : List Char) : Option ℚ :=
  let finish (hex : Bool) (r : Mantissa × List Char) : Option ℚ :=
    let m := r.1
    if !m.sawdigits then none
    else
      match r.2 with
      | [] =>
        if hex then none else some ((m.num : ℚ) / (10 : ℚ) ^ m.frac)
      | c :: rest =>
        if hex then
          if c = 'p' ∨ c = 'P' then
            (readExponent rest).map fun e => (m.num : ℚ) / (16 : ℚ) ^ m.frac * (2 : ℚ) ^ e
          else none
        else
          if c = 'e' ∨ c = 'E' then
            (readExponent rest).map fun e => (m.num : ℚ) / (10 : ℚ) ^ m.frac * (10 : ℚ) ^ e
          else none
  match t with
  | '0' :: x :: c :: r =>
    if x = 'x' ∨ x = 'X' then finish true (readMantissa 16 hexDigitVal (c :: r) {})
    else finish false (readMantissa 10 digitVal t {})
  | _ => finish false (readMantissa 10 digitVal t {})

/-- The least magnitude that rounds to an infinite `float64`. -/
def overflowBound : ℚ := 2 ^ 1024 - 2 ^ 970

/-- Go's `strconv.ParseFloat(s, 64)`: `none` stands for a non-nil error (syntax or
range).  The whole text must be a special value or a decimal or hexadecimal
floating-point literal; the value of a literal is kept exact (not rounded). -/
def ParseFloat (s : String) : Option F64 :=
  let cs := s.data
  match special cs with
  | some v => some v
  | none =>
    let signed : Bool × List Char :=
      match cs with
      | '+' :: t => (false, t)
      | '-' :: t => (true, t)
      | _ => (false, cs)
    match readUnsigned signed.2 with
    | none => none
    | some q =>
      if !underscoreOK cs then none
      else if overflowBound ≤ q then none
      else some (F64.fin (if signed.1 then -q else q))

/-! ## The program -/

/-- The form values: Go's `map[string]string`, as a list of key and text pairs. -/
abbrev Values := List (String × String)

/-- Go's `values[key]`: the text stored under the key, the empty string when the
key is absent. -/
def Values.get (values : Values) (key : String) : String :=
  (values.lookup key).getD ""

/-- The message `fmt.Sprintf("Поле %s є обов'язковим.", key)`. -/
def msgRequired (key : String) : String :=
  "Поле " ++ key ++ " є обов\x27язковим."

/-- The message `fmt.Sprintf("Поле %s має бути числом.", key)`. -/
def msgNumber (key : String) : String :=
  "Поле " ++ key ++ " має бути числом."

/-- The function `parsePercent` of `src/main.go`. -/
def parsePercent (values : Values) (key : String) (required : Bool) : F64 × String :=
  let raw := TrimSpace (values.get key)
  if raw = "" then
    if required then (F64.fin 0, msgRequired key)
    else (F64.fin 0, "")
  else
    let raw := ReplaceAll raw
    match ParseFloat raw with
    | none => (F64.fin 0, msgNumber key)
    | some v => (v, "")

/-- The record `ResultData` of `src/main.go`; a field that a task does not set keeps
Go's zero value. -/
structure ResultData where
  KRS : F64 := F64.fin 0
  KRG : F64 := F64.fin 0
  HS : F64 := F64.fin 0
  CS : F64 := F64.fin 0
  SS : F64 := F64.fin 0
  NS : F64 := F64.fin 0
  OS : F64 := F64.fin 0
  AS : F64 := F64.fin 0
  HG : F64 := F64.fin 0
  CG : F64 := F64.fin 0
  SG : F64 := F64.fin 0
  NG : F64 := F64.fin 0
  OG : F64 := F64.fin 0
  QrMJ : F64 := F64.fin 0
  QsMJ : F64 := F64.fin 0
  QgMJ : F64 := F64.fin 0
  KGR : F64 := F64.fin 0
  HR : F64 := F64.fin 0
  CR : F64 := F64.fin 0
  SR : F64 := F64.fin 0
  OR : F64 := F64.fin 0
  AR : F64 := F64.fin 0
  VRmg : F64 := F64.fin 0
  Qr2MJ : F64 := F64.fin 0
deriving DecidableEq

/-- The function `calcTask1` of `src/main.go`.  The pair stands for Go's
`(*ResultData, string)`: `none` is the nil pointer. -/
def calcTask1 (values : Values) : Option ResultData × String :=
  let (H, e) := parsePercent values "H" true
  if e ≠ "" then (none, e) else
  let (C, e) := parsePercent values "C" true
  if e ≠ "" then (none, e) else
  let (S, e) := parsePercent values "S" true
  if e ≠ "" then (none, e) else
  let (N, e) := parsePercent values "N" true
  if e ≠ "" then (none, e) else
  let (O, e) := parsePercent values "O" true
  if e ≠ "" then (none, e) else
  let (W, e) := parsePercent values "W" true
  if e ≠ "" then (none, e) else
  let (A, e) := parsePercent values "A" true
  if e ≠ "" then (none, e) else
  if W ≥ F64.fin 100 then (none, "W має бути < 100.") else
  if W + A ≥ F64.fin 100 then (none, "W + A має бути < 100.") else
  let krs := F64.fin 100 / (F64.fin 100 - W)
  let krg := F64.fin 100 / (F64.fin 100 - W - A)
  -- dry mass
  let hS := H * krs
  let cS := C * krs
  let sS := S * krs
  let nS := N * krs
  let oS := O * krs
  let aS := A * krs
  -- combustible mass
  let hG := H * krg
  let cG := C * krg
  let sG := S * krg
  let nG := N * krg
  let oG := O * krg
  -- lower heating value (kJ/kg)
  let qr_kJ := F64.fin 339 * C + F64.fin 1030 * H - F64.fin (1088 / 10) * (O - S)
    - F64.fin 25 * W
  let qs_kJ := (qr_kJ + F64.fin (25 / 1000) * W) * F64.fin 100 / (F64.fin 100 - W)
  let qg_kJ := (qr_kJ + F64.fin (25 / 1000) * W) * F64.fin 100 / (F64.fin 100 - W - A)
  (some { KRS := krs, KRG := krg,
          HS := hS, CS := cS, SS := sS, NS := nS, OS := oS, AS := aS,
          HG := hG, CG := cG, SG := sG, NG := nG, OG := oG,
          QrMJ := qr_kJ / F64.fin 1000,
          QsMJ := qs_kJ / F64.fin 1000,
          QgMJ := qg_kJ / F64.fin 1000 }, "")

/-- The function `calcTask2` of `src/main.go`. -/
def calcTask2 (values : Values) : Option ResultData × String :=
  let (H, e) := parsePercent values "H" true
  if e ≠ "" then (none, e) else
  let (C, e) := parsePercent values "C" true
  if e ≠ "" then (none, e) else
  let (S, e) := parsePercent values "S" true
  if e ≠ "" then (none, e) else
  let (O, e) := parsePercent values "O" true
  if e ≠ "" then (none, e) else
  let (W, e) := parsePercent values "W" true
  if e ≠ "" then (none, e) else
  let (A, e) := parsePercent values "A" true
  if e ≠ "" then (none, e) else
  let (V, e) := parsePercent values "V" true
  if e ≠ "" then (none, e) else
  let (Qg, e) := parsePercent values "Qg" true
  if e ≠ "" then (none, e) else
  if W + A ≥ F64.fin 100 then (none, "W + A має бути < 100.") else
  let kgr := (F64.fin 100 - W - A) / F64.fin 100
  let hR := H * kgr
  let cR := C * kgr
  let sR := S * kgr
  let oR := O * kgr
  let aR := A * kgr
  let vR := V * kgr
  let qr := Qg * (F64.fin 100 - W - aR) / F64.fin 100 - F64.fin (25 / 1000) * W
  (some { KGR := kgr, HR := hR, CR := cR, SR := sR, OR := oR, AR := aR,
          VRmg := vR, Qr2MJ := qr }, "")

/-! ## The state of a field, and the order in which the tasks read their fields -/

/-- The field is missing: its text, the empty text when the key is absent, is empty
once trimmed.  This is the first test of `parsePercent`. -/
def Missing (values : Values) (key : String) : Prop :=
  TrimSpace (values.get key) = ""

/-- The field is present and not a number: the second test of `parsePercent`. -/
def NonNumeric (values : Values) (key : String) : Prop :=
  TrimSpace (values.get key) ≠ "" ∧
    ParseFloat (ReplaceAll (TrimSpace (values.get key))) = none

instance (values : Values) (key : String) : Decidable (Missing values key) :=
  inferInstanceAs (Decidable (TrimSpace (values.get key) = ""))

instance (values : Values) (key : String) : Decidable (NonNumeric values key) :=
  inferInstanceAs (Decidable (TrimSpace (values.get key) ≠ "" ∧
    ParseFloat (ReplaceAll (TrimSpace (values.get key))) = none))

/-- The keys of `calcTask1`, in the order of its calls of `parsePercent`. -/
def task1Fields : List String := ["H", "C", "S", "N", "O", "W", "A"]

/-- The keys of `calcTask2`, in the order of its calls of `parsePercent`. -/
def task2Fields : List String := ["H", "C", "S", "O", "W", "A", "V", "Qg"]

/-- The message of the first key, in the order given, whose required field does not
parse; the empty message when all parse. -/
def firstError (values : Values) : List String → String
  | [] => ""
  | k :: ks =>
    if (parsePercent values k true).2 ≠ "" then (parsePercent values k true).2
    else firstError values ks

/-! ## Scenarios of the specification -/

/-- Scenario S1: a typical coal on the working basis. -/
def s1 : Values :=
  [("H", "4"), ("C", "60"), ("S", "1"), ("N", "1"), ("O", "10"), ("W", "8"), ("A", "20")]

/-- Scenario S2: moisture just below the bound, no element. -/
def s2 : Values :=
  [("H", "0"), ("C", "0"), ("S", "0"), ("N", "0"), ("O", "0"), ("W", "99.5"), ("A", "0")]

/-- Scenario S3: moisture and ash add up to the bound. -/
def s3 : Values :=
  [("H", "4"), ("C", "60"), ("S", "1"), ("N", "1"), ("O", "10"), ("W", "60"), ("A", "40")]

/-- Scenario S4: a typical Task 2 input. -/
def s4 : Values :=
  [("H", "5"), ("C", "75"), ("S", "2"), ("O", "8"), ("W", "10"), ("A", "15"),
   ("V", "300"), ("Qg", "30")]

/-- Scenario S5: scenario S4 with the key `Qg` omitted. -/
def s5 : Values :=
  [("H", "5"), ("C", "75"), ("S", "2"), ("O", "8"), ("W", "10"), ("A", "15"),
   ("V", "300")]

/-- Scenario S5 with a text for `H` that is not a number: `Qg` is still the only
missing field. -/
def s5BadH : Values :=
  [("H", "abc"), ("C", "75"), ("S", "2"), ("O", "8"), ("W", "10"), ("A", "15"),
   ("V", "300")]

/-- A Task 1 input whose first field is not a number and whose second is missing. -/
def badHMissingC : Values :=
  [("H", "abc"), ("S", "1"), ("N", "1"), ("O", "10"), ("W", "8"), ("A", "20")]

/-- A Task 1 input whose first field is missing and whose second is not a number. -/
def missingHBadC : Values :=
  [("C", "abc"), ("S", "1"), ("N", "1"), ("O", "10"), ("W", "8"), ("A", "20")]

/-- A Task 1 input with `W + A = 100` whose field `O` is not a number. -/
def s3BadO : Values :=
  [("H", "4"), ("C", "60"), ("S", "1"), ("N", "1"), ("O", "1.2.3"), ("W", "60"),
   ("A", "40")]

/-- A Task 2 input with `W + A = 100` whose field `Qg` is not a number. -/
def task2BadQg : Values :=
  [("H", "5"), ("C", "75"), ("S", "2"), ("O", "8"), ("W", "60"), ("A", "40"),
   ("V", "300"), ("Qg", "x")]

/-- Scenario S1 with the text `NaN` for `W`. -/
def s1NaNW : Values :=
  [("H", "4"), ("C", "60"), ("S", "1"), ("N", "1"), ("O", "10"), ("W", "NaN"), ("A", "20")]

/-- Scenario S1 with no moisture and no ash. -/
def s1NoWA : Values :=
  [("H", "4"), ("C", "60"), ("S", "1"), ("N", "1"), ("O", "10"), ("W", "0"), ("A", "0")]

/-- A Task 1 input that is accepted although every field is outside `[0, 100)`:
`H`, `N` and `W` are negative and `C`, `S`, `O` and `A` are 100 or more. -/
def task1OutOfRange : Values :=
  [("H", "-5"), ("C", "150"), ("S", "100"), ("N", "-1"), ("O", "200"), ("W", "-10"),
   ("A", "105")]

/-- A Task 2 input that is accepted although every field is out of range: `H`, `W`,
`V` and `Qg` are negative and `C`, `S`, `O` and `A` are 100 or more. -/
def task2OutOfRange : Values :=
  [("H", "-5"), ("C", "150"), ("S", "100"), ("O", "200"), ("W", "-30"), ("A", "120"),
   ("V", "-1"), ("Qg", "-30")]

/-- Scenario S1 with `W = 79.99`, close to the bound `100 - A = 80`. -/
def s1CloseToBound : Values :=
  [("H", "4"), ("C", "60"), ("S", "1"), ("N", "1"), ("O", "10"), ("W", "79.99"),
   ("A", "20")]

/-- A Task 1 input with `W = 10` and `A = 40`, so that `K_rg = 2`. -/
def roundTrip1 : Values :=
  [("H", "4"), ("C", "30"), ("S", "1"), ("N", "1"), ("O", "5"), ("W", "10"), ("A", "40")]

/-- The Task 2 input made of the combustible-basis outputs of `roundTrip1` and the
same `W` and `A`. -/
def roundTrip2 : Values :=
  [("H", "8"), ("C", "60"), ("S", "2"), ("O", "10"), ("W", "10"), ("A", "40"),
   ("V", "300"), ("Qg", "30")]

/-- A Task 2 input with the `W` and `A` of scenario S1 and, for the elements, the
combustible-basis outputs of S1 rounded to two decimals: `H_g = 50/9`,
`C_g = 250/3`, `S_g = 25/18` and `O_g = 125/9` are not decimal numbers. -/
def s1Back : Values :=
  [("H", "5.56"), ("C", "83.33"), ("S", "1.39"), ("O", "13.89"), ("W", "8"), ("A", "20"),
   ("V", "300"), ("Qg", "30")]

/-- The input `roundTrip1` with the text `-Inf` for `W`. -/
def roundTrip1NegInf : Values :=
  [("H", "4"), ("C", "30"), ("S", "1"), ("N", "1"), ("O", "5"), ("W", "-Inf"), ("A", "40")]

/-- The Task 2 input made of the combustible-basis outputs of `roundTrip1NegInf`,
which are all zero, and the same `W` and `A`. -/
def roundTrip2NegInf : Values :=
  [("H", "0"), ("C", "0"), ("S", "0"), ("O", "0"), ("W", "-Inf"), ("A", "40"),
   ("V", "300"), ("Qg", "30")]

/-- Scenario S1 with the text `NaN` for `A`. -/
def s1NaNA : Values :=
  [("H", "4"), ("C", "60"), ("S", "1"), ("N", "1"), ("O", "10"), ("W", "8"), ("A", "NaN")]

/-! ## Task 1 in binary64 arithmetic

The definitions above compute exactly.  The ones below are the same `parsePercent`
and `calcTask1` with every value a binary64 number and every operation rounded to
the nearest binary64 number, as Go's `float64` does when each operation is rounded
on its own; they serve where a statement holds in exact arithmetic only. -/

/-- The number of binary digits of `n`, computed with at most `fuel` halvings. -/
def bitLength : Nat → Nat → Nat
  | 0, _ => 0
  | fuel + 1, n => if n = 0 then 0 else bitLength fuel (n / 2) + 1

/-- The binary64 number nearest to a rational number, ties to the even significand;
a magnitude that rounds to `2 ^ 1024` or more gives an infinity.  The exponent `e`
is the one with `2 ^ e <= |q| < 2 ^ (e + 1)`, and the spacing of the binary64
numbers there is `2 ^ (e - 52)`, or `2 ^ (-1074)` below `2 ^ (-1022)`. -/
def round64 (q : ℚ) : F64 :=
  if q = 0 then F64.fin 0
  else
    let e0 : Int :=
      (bitLength q.num.natAbs q.num.natAbs : Int) - (bitLength q.den q.den : Int)
    let e : Int := if (2 : ℚ) ^ e0 ≤ |q| then e0 else e0 - 1
    let ulp : ℚ := (2 : ℚ) ^ (max e (-1022) - 52)
    let m : ℚ := |q| / ulp
    let n0 : Nat := m.num.natAbs / m.den
    let rem : Nat := m.num.natAbs % m.den
    let n : Nat :=
      if 2 * rem < m.den then n0
      else if m.den < 2 * rem then n0 + 1
      else if n0 % 2 = 0 then n0 else n0 + 1
    let v : ℚ := (n : ℚ) * ulp
    if (2 : ℚ) ^ 1024 ≤ v then (if 0 < q then F64.posInf else F64.negInf)
    else F64.fin (if 0 < q then v else -v)

/-- Rounding of a result: a finite value goes to the nearest binary64 number, the
special values stay. -/
def F64.rnd : F64 → F64
  | F64.fin q => round64 q
  | x => x

/-- A `float64` of Go: a value that is a binary64 number, with rounded operations. -/
structure B64 where
  val : F64
deriving DecidableEq

/-- A floating-point constant of the source, converted to `float64`. -/
def B64.lit (q : ℚ) : B64 := ⟨round64 q⟩

instance : Add B64 := ⟨fun x y => ⟨F64.rnd (x.val + y.val)⟩⟩
instance : Sub B64 := ⟨fun x y => ⟨F64.rnd (x.val - y.val)⟩⟩
instance : Mul B64 := ⟨fun x y => ⟨F64.rnd (x.val * y.val)⟩⟩
instance : Div B64 := ⟨fun x y => ⟨F64.rnd (x.val / y.val)⟩⟩
instance : LE B64 := ⟨fun x y => x.val ≤ y.val⟩
instance : LT B64 := ⟨fun x y => x.val < y.val⟩
instance (x y : B64) : Decidable (x ≤ y) := inferInstanceAs (Decidable (x.val ≤ y.val))
instance (x y : B64) : Decidable (x < y) := inferInstanceAs (Decidable (x.val < y.val))

/-- The function `parsePercent` of `src/main.go` with the value that `ParseFloat`
returns rounded to binary64. -/
def parsePercentFloat (values : Values) (key : String) (required : Bool) : B64 × String :=
  let raw := TrimSpace (values.get key)
  if raw = "" then
    if required then (B64.lit 0, msgRequired key)
    else (B64.lit 0, "")
  else
    let raw := ReplaceAll raw
    match ParseFloat raw with
    | none => (B64.lit 0, msgNumber key)
    | some v => (⟨F64.rnd v⟩, "")

/-- The function `calcTask1` of `src/main.go` in binary64 arithmetic. -/
def calcTask1Float (values : Values) : Option ResultData × String :=
  let (H, e) := parsePercentFloat values "H" true
  if e ≠ "" then (none, e) else
  let (C, e) := parsePercentFloat values "C" true
  if e ≠ "" then (none, e) else
  let (S, e) := parsePercentFloat values "S" true
  if e ≠ "" then (none, e) else
  let (N, e) := parsePercentFloat values "N" true
  if e ≠ "" then (none, e) else
  let (O, e) := parsePercentFloat values "O" true
  if e ≠ "" then (none, e) else
  let (W, e) := parsePercentFloat values "W" true
  if e ≠ "" then (none, e) else
  let (A, e) := parsePercentFloat values "A" true
  if e ≠ "" then (none, e) else
  if W ≥ B64.lit 100 then (none, "W має бути < 100.") else
  if W + A ≥ B64.lit 100 then (none, "W + A має бути < 100.") else
  let krs := B64.lit 100 / (B64.lit 100 - W)
  let krg := B64.lit 100 / (B64.lit 100 - W - A)
  -- dry mass
  let hS := H * krs
  let cS := C * krs
  let sS := S * krs
  let nS := N * krs
  let oS := O * krs
  let aS := A * krs
  -- combustible mass
  let hG := H * krg
  let cG := C * krg
  let sG := S * krg
  let nG := N * krg
  let oG := O * krg
  -- lower heating value (kJ/kg)
  let qr_kJ := B64.lit 339 * C + B64.lit 1030 * H - B64.lit (1088 / 10) * (O - S)
    - B64.lit 25 * W
  let qs_kJ := (qr_kJ + B64.lit (25 / 1000) * W) * B64.lit 100 / (B64.lit 100 - W)
  let qg_kJ := (qr_kJ + B64.lit (25 / 1000) * W) * B64.lit 100 / (B64.lit 100 - W - A)
  (some { KRS := krs.val, KRG := krg.val,
          HS := hS.val, CS := cS.val, SS := sS.val, NS := nS.val, OS := oS.val,
          AS := aS.val,
          HG := hG.val, CG := cG.val, SG := sG.val, NG := nG.val, OG := oG.val,
          QrMJ := (qr_kJ / B64.lit 1000).val,
          QsMJ := (qs_kJ / B64.lit 1000).val,
          QgMJ := (qg_kJ / B64.lit 1000).val }, "")

/-- A Task 1 input with no moisture and no ash: `H = 5`, `C = 50.4`, `S = 1`,
`N = 1`, `O = 10`. -/
def noWAFloat : Values :=
  [("H", "5"), ("C", "50.4"), ("S", "1"), ("N", "1"), ("O", "10"), ("W", "0"), ("A", "0")]

namespace F64

@[simp] theorem fin_add_fin (a b : ℚ) : fin a + fin b = fin (a + b) := rfl

@[simp] theorem fin_sub_fin (a b : ℚ) : fin a - fin b = fin (a - b) := by
  show add (fin a) (neg (fin b)) = fin (a - b)
  simp [add, neg, sub_eq_add_neg]

@[simp] theorem fin_mul_fin (a b : ℚ) : fin a * fin b = fin (a * b) := rfl

theorem fin_div_fin (a b : ℚ) (hb : b ≠ 0) : fin a / fin b = fin (a / b) := by
  show div (fin a) (fin b) = fin (a / b)
  simp [div, hb]

@[simp] theorem fin_le_fin (a b : ℚ) : fin a ≤ fin b ↔ a ≤ b := by
  show ble (fin a) (fin b) = true ↔ a ≤ b
  simp [ble]

@[simp] theorem fin_lt_fin (a b : ℚ) : fin a < fin b ↔ a < b := by
  show blt (fin a) (fin b) = true ↔ a < b
  simp [blt]

/-- A value strictly below another is not above or equal to it. -/
theorem not_ge_of_lt {x y : F64} (h : x < y) : ¬ x ≥ y := by
  change blt x y = true at h
  show ¬ ble y x = true
  cases x <;> cases y <;> simp_all [blt, ble]

end F64

/-! ## The two tasks once the fields are parsed -/

/-- With its seven fields parsed, `calcTask1` is its two domain checks followed by
the computation. -/
theorem calcTask1_of_parsed (values : Values) (H C S N O W A : F64)
    (hH : parsePercent values "H" true = (H, ""))
    (hC : parsePercent values "C" true = (C, ""))
    (hS : parsePercent values "S" true = (S, ""))
    (hN : parsePercent values "N" true = (N, ""))
    (hO : parsePercent values "O" true = (O, ""))
    (hW : parsePercent values "W" true = (W, ""))
    (hA : parsePercent values "A" true = (A, "")) :
    calcTask1 values =
      if W ≥ F64.fin 100 then (none, "W має бути < 100.")
      else if W + A ≥ F64.fin 100 then (none, "W + A має бути < 100.")
      else
        (some { KRS := F64.fin 100 / (F64.fin 100 - W),
                KRG := F64.fin 100 / (F64.fin 100 - W - A),
                HS := H * (F64.fin 100 / (F64.fin 100 - W)),
                CS := C * (F64.fin 100 / (F64.fin 100 - W)),
                SS := S * (F64.fin 100 / (F64.fin 100 - W)),
                NS := N * (F64.fin 100 / (F64.fin 100 - W)),
                OS := O * (F64.fin 100 / (F64.fin 100 - W)),
                AS := A * (F64.fin 100 / (F64.fin 100 - W)),
                HG := H * (F64.fin 100 / (F64.fin 100 - W - A)),
                CG := C * (F64.fin 100 / (F64.fin 100 - W - A)),
                SG := S * (F64.fin 100 / (F64.fin 100 - W - A)),
                NG := N * (F64.fin 100 / (F64.fin 100 - W - A)),
                OG := O * (F64.fin 100 / (F64.fin 100 - W - A)),
                QrMJ := (F64.fin 339 * C + F64.fin 1030 * H
                  - F64.fin (1088 / 10) * (O - S) - F64.fin 25 * W) / F64.fin 1000,
                QsMJ := ((F64.fin 339 * C + F64.fin 1030 * H
                  - F64.fin (1088 / 10) * (O - S) - F64.fin 25 * W
                  + F64.fin (25 / 1000) * W) * F64.fin 100 / (F64.fin 100 - W))
                  / F64.fin 1000,
                QgMJ := ((F64.fin 339 * C + F64.fin 1030 * H
                  - F64.fin (1088 / 10) * (O - S) - F64.fin 25 * W
                  + F64.fin (25 / 1000) * W) * F64.fin 100 / (F64.fin 100 - W - A))
                  / F64.fin 1000 }, "") := by
  simp only [calcTask1, hH, hC, hS, hN, hO, hW, hA, ne_eq, not_true_eq_false, if_false]

/-- With its eight fields parsed, `calcTask2` is its domain check followed by the
computation. -/
theorem calcTask2_of_parsed (values : Values) (H C S O W A V Qg : F64)
    (hH : parsePercent values "H" true = (H, ""))
    (hC : parsePercent values "C" true = (C, ""))
    (hS : parsePercent values "S" true = (S, ""))
    (hO : parsePercent values "O" true = (O, ""))
    (hW : parsePercent values "W" true = (W, ""))
    (hA : parsePercent values "A" true = (A, ""))
    (hV : parsePercent values "V" true = (V, ""))
    (hQ : parsePercent values "Qg" true = (Qg, "")) :
    calcTask2 values =
      if W + A ≥ F64.fin 100 then (none, "W + A має бути < 100.")
      else
        (some { KGR := (F64.fin 100 - W - A) / F64.fin 100,
                HR := H * ((F64.fin 100 - W - A) / F64.fin 100),
                CR := C * ((F64.fin 100 - W - A) / F64.fin 100),
                SR := S * ((F64.fin 100 - W - A) / F64.fin 100),
                OR := O * ((F64.fin 100 - W - A) / F64.fin 100),
                AR := A * ((F64.fin 100 - W - A) / F64.fin 100),
                VRmg := V * ((F64.fin 100 - W - A) / F64.fin 100),
                Qr2MJ := Qg * (F64.fin 100 - W
                  - A * ((F64.fin 100 - W - A) / F64.fin 100)) / F64.fin 100
                  - F64.fin (25 / 1000) * W }, "") := by
  simp only [calcTask2, hH, hC, hS, hO, hW, hA, hV, hQ, ne_eq, not_true_eq_false, if_false]

/-! ## Task 1 -/

/-- C1: when the seven fields of a Task 1 input parse to `H C S N O W A` with
`W < 100` and `W + A < 100`, `calcTask1` returns a result and no message; its
`K_rs` is `100 / (100 - W)`, its `K_rg` is `100 / (100 - W - A)`, each dry-basis
value is the input times `K_rs` and each combustible-basis value is the input
times `K_rg`. -/
theorem calcTask1_recast (values : Values) (H C S N O W A : F64)
    (hH : parsePercent values "H" true = (H, ""))
    (hC : parsePercent values "C" true = (C, ""))
    (hS : parsePercent values "S" true = (S, ""))
    (hN : parsePercent values "N" true = (N, ""))
    (hO : parsePercent values "O" true = (O, ""))
    (hW : parsePercent values "W" true = (W, ""))
    (hA : parsePercent values "A" true = (A, ""))
    (hW100 : W < F64.fin 100) (hWA100 : W + A < F64.fin 100) :
    ∃ r : ResultData, calcTask1 values = (some r, "") ∧
      r.KRS = F64.fin 100 / (F64.fin 100 - W) ∧
      r.KRG = F64.fin 100 / (F64.fin 100 - W - A) ∧
      r.HS = H * r.KRS ∧ r.CS = C * r.KRS ∧ r.SS = S * r.KRS ∧
      r.NS = N * r.KRS ∧ r.OS = O * r.KRS ∧ r.AS = A * r.KRS ∧
      r.HG = H * r.KRG ∧ r.CG = C * r.KRG ∧ r.SG = S * r.KRG ∧
      r.NG = N * r.KRG ∧ r.OG = O * r.KRG := by
  have h := calcTask1_of_parsed values H C S N O W A hH hC hS hN hO hW hA
  rw [if_neg (F64.not_ge_of_lt hW100), if_neg (F64.not_ge_of_lt hWA100)] at h
  exact ⟨_, h, rfl, rfl, rfl, rfl, rfl, rfl, rfl, rfl, rfl, rfl, rfl, rfl, rfl⟩

/-- Scenario S1 for C1: `W = 8`, `A = 20` give `K_rs = 100/92` and `K_rg = 100/72`,
and the recast values are the inputs times these. -/
theorem calcTask1_recast_witness :
    ∃ r : ResultData, calcTask1 s1 = (some r, "") ∧
      r.KRS = F64.fin (100 / 92) ∧ r.KRG = F64.fin (100 / 72) ∧
      r.HS = F64.fin (4 * (100 / 92)) ∧ r.CS = F64.fin (60 * (100 / 92)) ∧
      r.SS = F64.fin (1 * (100 / 92)) ∧ r.NS = F64.fin (1 * (100 / 92)) ∧
      r.OS = F64.fin (10 * (100 / 92)) ∧ r.AS = F64.fin (20 * (100 / 92)) ∧
      r.HG = F64.fin (4 * (100 / 72)) ∧ r.CG = F64.fin (60 * (100 / 72)) ∧
      r.SG = F64.fin (1 * (100 / 72)) ∧ r.NG = F64.fin (1 * (100 / 72)) ∧
      r.OG = F64.fin (10 * (100 / 72)) := by
  obtain ⟨r, hr, h1, h2, h3, h4, h5, h6, h7, h8, h9, h10, h11, h12, h13⟩ :=
    calcTask1_recast s1 (F64.fin 4) (F64.fin 60) (F64.fin 1) (F64.fin 1) (F64.fin 10)
      (F64.fin 8) (F64.fin 20) (by decide!) (by decide!) (by decide!) (by decide!)
      (by decide!) (by decide!) (by decide!) (by decide!) (by decide!)
  have k1 : F64.fin 100 / (F64.fin 100 - F64.fin 8) = F64.fin (100 / 92) := by decide!
  have k2 : F64.fin 100 / (F64.fin 100 - F64.fin 8 - F64.fin 20) = F64.fin (100 / 72) := by
    decide!
  rw [k1] at h1
  rw [k2] at h2
  rw [h1] at h3 h4 h5 h6 h7 h8
  rw [h2] at h9 h10 h11 h12 h13
  exact ⟨r, hr, h1, h2, h3, h4, h5, h6, h7, h8, h9, h10, h11, h12, h13⟩

/-- C2: for a Task 1 input that is accepted, with fields parsed to `H C S N O W A`,
the emitted heating values are `Q_r_kJ / 1000`, `Q_s_kJ / 1000` and `Q_g_kJ / 1000`
with `Q_r_kJ = 339 C + 1030 H - 108.8 (O - S) - 25 W`,
`Q_s_kJ = (Q_r_kJ + 0.025 W) * 100 / (100 - W)` and
`Q_g_kJ = (Q_r_kJ + 0.025 W) * 100 / (100 - W - A)`. -/
theorem calcTask1_heating (values : Values) (H C S N O W A : F64) (r : ResultData)
    (hH : parsePercent values "H" true = (H, ""))
    (hC : parsePercent values "C" true = (C, ""))
    (hS : parsePercent values "S" true = (S, ""))
    (hN : parsePercent values "N" true = (N, ""))
    (hO : parsePercent values "O" true = (O, ""))
    (hW : parsePercent values "W" true = (W, ""))
    (hA : parsePercent values "A" true = (A, ""))
    (hacc : (calcTask1 values).1 = some r) :
    r.QrMJ = (F64.fin 339 * C + F64.fin 1030 * H - F64.fin (1088 / 10) * (O - S)
        - F64.fin 25 * W) / F64.fin 1000 ∧
    r.QsMJ = ((F64.fin 339 * C + F64.fin 1030 * H - F64.fin (1088 / 10) * (O - S)
        - F64.fin 25 * W + F64.fin (25 / 1000) * W) * F64.fin 100 / (F64.fin 100 - W))
        / F64.fin 1000 ∧
    r.QgMJ = ((F64.fin 339 * C + F64.fin 1030 * H - F64.fin (1088 / 10) * (O - S)
        - F64.fin 25 * W + F64.fin (25 / 1000) * W) * F64.fin 100
        / (F64.fin 100 - W - A)) / F64.fin 1000 := by
  have h := calcTask1_of_parsed values H C S N O W A hH hC hS hN hO hW hA
  rw [h] at hacc
  by_cases h1 : W ≥ F64.fin 100
  · rw [if_pos h1] at hacc
    exact absurd hacc (by simp)
  · rw [if_neg h1] at hacc
    by_cases h2 : W + A ≥ F64.fin 100
    · rw [if_pos h2] at hacc
      exact absurd hacc (by simp)
    · rw [if_neg h2] at hacc
      simp only [Option.some.injEq] at hacc
      subst hacc
      exact ⟨rfl, rfl, rfl⟩

/-- Scenario S1 for C2: `Q_r_kJ = 23280.8`, `Q_s_kJ = 23281 * 100 / 92` and
`Q_g_kJ = 23281 * 100 / 72`, each emitted divided by 1000. -/
theorem calcTask1_heating_witness :
    ∃ r : ResultData, (calcTask1 s1).1 = some r ∧
      r.QrMJ = F64.fin (232808 / 10 / 1000) ∧
      r.QsMJ = F64.fin (23281 * 100 / 92 / 1000) ∧
      r.QgMJ = F64.fin (23281 * 100 / 72 / 1000) := by
  have hacc : (calcTask1 s1).1 = some ((calcTask1 s1).1.getD {}) := by decide!
  obtain ⟨h1, h2, h3⟩ :=
    calcTask1_heating s1 (F64.fin 4) (F64.fin 60) (F64.fin 1) (F64.fin 1) (F64.fin 10)
      (F64.fin 8) (F64.fin 20) _ (by decide!) (by decide!) (by decide!) (by decide!)
      (by decide!) (by decide!) (by decide!) hacc
  refine ⟨_, hacc, h1.trans (by decide!), h2.trans (by decide!), h3.trans (by decide!)⟩

/-- C3: when the seven fields of a Task 1 input parse, the outcome depends on `W`
and `A` only: `W >= 100` gives the message on `W` and no result; otherwise
`W + A >= 100` gives the message on `W + A` and no result; otherwise a result is
returned with the empty message, whatever the values computed. -/
theorem calcTask1_validation (values : Values) (H C S N O W A : F64)
    (hH : parsePercent values "H" true = (H, ""))
    (hC : parsePercent values "C" true = (C, ""))
    (hS : parsePercent values "S" true = (S, ""))
    (hN : parsePercent values "N" true = (N, ""))
    (hO : parsePercent values "O" true = (O, ""))
    (hW : parsePercent values "W" true = (W, ""))
    (hA : parsePercent values "A" true = (A, "")) :
    (W ≥ F64.fin 100 → calcTask1 values = (none, "W має бути < 100.")) ∧
    (¬ W ≥ F64.fin 100 → W + A ≥ F64.fin 100 →
      calcTask1 values = (none, "W + A має бути < 100.")) ∧
    (¬ W ≥ F64.fin 100 → ¬ W + A ≥ F64.fin 100 →
      ∃ r : ResultData, calcTask1 values = (some r, "")) := by
  have h := calcTask1_of_parsed values H C S N O W A hH hC hS hN hO hW hA
  refine ⟨fun h1 => ?_, fun h1 h2 => ?_, fun h1 h2 => ?_⟩
  · rw [h, if_pos h1]
  · rw [h, if_neg h1, if_pos h2]
  · rw [h, if_neg h1, if_neg h2]
    exact ⟨_, rfl⟩

/-- Scenarios S3 and S2 for C3: `W = 60`, `A = 40` is rejected with the message on
`W + A`; `W = 99.5`, `A = 0` with all elements zero is accepted, with `K_rs = 200`
and the negative `Q_r = -2.4875`. -/
theorem calcTask1_validation_witness :
    calcTask1 s3 = (none, "W + A має бути < 100.") ∧
    ∃ r : ResultData, calcTask1 s2 = (some r, "") ∧
      r.KRS = F64.fin 200 ∧ r.QrMJ = F64.fin (-24875 / 10000) := by
  have h3 := calcTask1_validation s3 (F64.fin 4) (F64.fin 60) (F64.fin 1) (F64.fin 1)
    (F64.fin 10) (F64.fin 60) (F64.fin 40) (by decide!) (by decide!) (by decide!)
    (by decide!) (by decide!) (by decide!) (by decide!)
  have h2 := calcTask1_validation s2 (F64.fin 0) (F64.fin 0) (F64.fin 0) (F64.fin 0)
    (F64.fin 0) (F64.fin (995 / 10)) (F64.fin 0) (by decide!) (by decide!) (by decide!)
    (by decide!) (by decide!) (by decide!) (by decide!)
  refine ⟨h3.2.1 (by decide!) (by decide!), ?_⟩
  obtain ⟨r, hr⟩ := h2.2.2 (by decide!) (by decide!)
  have e1 : ((calcTask1 s2).1.getD {}).KRS = F64.fin 200 := by decide!
  have e2 : ((calcTask1 s2).1.getD {}).QrMJ = F64.fin (-24875 / 10000) := by decide!
  rw [hr] at e1 e2
  exact ⟨r, hr, e1, e2⟩

/-! ## Task 2 -/

/-- C4: when the eight fields of a Task 2 input parse to `H C S O W A V Qg` with
`W + A < 100`, `calcTask2` returns a result and no message; its `K_gr` is
`(100 - W - A) / 100` and each of `H_r C_r S_r O_r A_r V_r` is the input times
`K_gr`, the ash output included. -/
theorem calcTask2_recast (values : Values) (H C S O W A V Qg : F64)
    (hH : parsePercent values "H" true = (H, ""))
    (hC : parsePercent values "C" true = (C, ""))
    (hS : parsePercent values "S" true = (S, ""))
    (hO : parsePercent values "O" true = (O, ""))
    (hW : parsePercent values "W" true = (W, ""))
    (hA : parsePercent values "A" true = (A, ""))
    (hV : parsePercent values "V" true = (V, ""))
    (hQ : parsePercent values "Qg" true = (Qg, ""))
    (hWA100 : W + A < F64.fin 100) :
    ∃ r : ResultData, calcTask2 values = (some r, "") ∧
      r.KGR = (F64.fin 100 - W - A) / F64.fin 100 ∧
      r.HR = H * r.KGR ∧ r.CR = C * r.KGR ∧ r.SR = S * r.KGR ∧
      r.OR = O * r.KGR ∧ r.AR = A * r.KGR ∧ r.VRmg = V * r.KGR := by
  have h := calcTask2_of_parsed values H C S O W A V Qg hH hC hS hO hW hA hV hQ
  rw [if_neg (F64.not_ge_of_lt hWA100)] at h
  exact ⟨_, h, rfl, rfl, rfl, rfl, rfl, rfl, rfl⟩

/-- Scenario S4 for C4: `W = 10`, `A = 15` give `K_gr = 0.75`, the ash output
`A_r = 11.25` (not the input 15) and `V_r = 225` for `V = 300`. -/
theorem calcTask2_recast_witness :
    ∃ r : ResultData, calcTask2 s4 = (some r, "") ∧
      r.KGR = F64.fin (75 / 100) ∧
      r.HR = F64.fin (375 / 100) ∧ r.CR = F64.fin (5625 / 100) ∧
      r.SR = F64.fin (15 / 10) ∧ r.OR = F64.fin 6 ∧
      r.AR = F64.fin (1125 / 100) ∧ r.AR ≠ F64.fin 15 ∧ r.VRmg = F64.fin 225 := by
  obtain ⟨r, hr, h1, h2, h3, h4, h5, h6, h7⟩ :=
    calcTask2_recast s4 (F64.fin 5) (F64.fin 75) (F64.fin 2) (F64.fin 8) (F64.fin 10)
      (F64.fin 15) (F64.fin 300) (F64.fin 30) (by decide!) (by decide!) (by decide!)
      (by decide!) (by decide!) (by decide!) (by decide!) (by decide!) (by decide!)
  have k : (F64.fin 100 - F64.fin 10 - F64.fin 15) / F64.fin 100 = F64.fin (75 / 100) := by
    decide!
  rw [k] at h1
  rw [h1] at h2 h3 h4 h5 h6 h7
  refine ⟨r, hr, h1, h2.trans (by decide!), h3.trans (by decide!), h4.trans (by decide!),
    h5.trans (by decide!), h6.trans (by decide!), ?_, h7.trans (by decide!)⟩
  rw [h6]
  decide!

/-- C5: for a Task 2 input that is accepted, with fields parsed to
`H C S O W A V Qg`, the emitted heating value is
`Q_r2 = Qg * (100 - W - A_r) / 100 - 0.025 W`, where `A_r` is the recast ash
`A * ((100 - W - A) / 100)` that the result carries, not the input `A`. -/
theorem calcTask2_heating (values : Values) (H C S O W A V Qg : F64) (r : ResultData)
    (hH : parsePercent values "H" true = (H, ""))
    (hC : parsePercent values "C" true = (C, ""))
    (hS : parsePercent values "S" true = (S, ""))
    (hO : parsePercent values "O" true = (O, ""))
    (hW : parsePercent values "W" true = (W, ""))
    (hA : parsePercent values "A" true = (A, ""))
    (hV : parsePercent values "V" true = (V, ""))
    (hQ : parsePercent values "Qg" true = (Qg, ""))
    (hacc : (calcTask2 values).1 = some r) :
    r.AR = A * ((F64.fin 100 - W - A) / F64.fin 100) ∧
    r.Qr2MJ = Qg * (F64.fin 100 - W - r.AR) / F64.fin 100 - F64.fin (25 / 1000) * W := by
  have h := calcTask2_of_parsed values H C S O W A V Qg hH hC hS hO hW hA hV hQ
  rw [h] at hacc
  by_cases h1 : W + A ≥ F64.fin 100
  · rw [if_pos h1] at hacc
    exact absurd hacc (by simp)
  · rw [if_neg h1] at hacc
    simp only [Option.some.injEq] at hacc
    subst hacc
    exact ⟨rfl, rfl⟩

/-- Scenario S4 for C5: `Qg = 30`, `W = 10`, `A = 15` give `A_r = 11.25` and
`Q_r2 = 23.375`; with the input ash in place of `A_r` the value would be 22.25. -/
theorem calcTask2_heating_witness :
    ∃ r : ResultData, (calcTask2 s4).1 = some r ∧
      r.AR = F64.fin (1125 / 100) ∧ r.Qr2MJ = F64.fin (23375 / 1000) ∧
      r.Qr2MJ ≠ F64.fin 30 * (F64.fin 100 - F64.fin 10 - F64.fin 15) / F64.fin 100
        - F64.fin (25 / 1000) * F64.fin 10 := by
  have hacc : (calcTask2 s4).1 = some ((calcTask2 s4).1.getD {}) := by decide!
  obtain ⟨h1, h2⟩ :=
    calcTask2_heating s4 (F64.fin 5) (F64.fin 75) (F64.fin 2) (F64.fin 8) (F64.fin 10)
      (F64.fin 15) (F64.fin 300) (F64.fin 30) _ (by decide!) (by decide!) (by decide!)
      (by decide!) (by decide!) (by decide!) (by decide!) (by decide!) hacc
  have h1' := h1.trans (by decide! :
    F64.fin 15 * ((F64.fin 100 - F64.fin 10 - F64.fin 15) / F64.fin 100)
      = F64.fin (1125 / 100))
  rw [h1'] at h2
  have h2' := h2.trans (by decide! :
    F64.fin 30 * (F64.fin 100 - F64.fin 10 - F64.fin (1125 / 100)) / F64.fin 100
      - F64.fin (25 / 1000) * F64.fin 10 = F64.fin (23375 / 1000))
  refine ⟨_, hacc, h1', h2', ?_⟩
  rw [h2']
  decide!

/-- C6: when the eight fields of a Task 2 input parse, `calcTask2` returns a
message exactly when `W + A >= 100`; the outcome is then no result with the message
on `W + A`, and in every other case a result with the empty message. -/
theorem calcTask2_validation (values : Values) (H C S O W A V Qg : F64)
    (hH : parsePercent values "H" true = (H, ""))
    (hC : parsePercent values "C" true = (C, ""))
    (hS : parsePercent values "S" true = (S, ""))
    (hO : parsePercent values "O" true = (O, ""))
    (hW : parsePercent values "W" true = (W, ""))
    (hA : parsePercent values "A" true = (A, ""))
    (hV : parsePercent values "V" true = (V, ""))
    (hQ : parsePercent values "Qg" true = (Qg, "")) :
    ((calcTask2 values).2 ≠ "" ↔ W + A ≥ F64.fin 100) ∧
    (W + A ≥ F64.fin 100 → calcTask2 values = (none, "W + A має бути < 100.")) ∧
    (¬ W + A ≥ F64.fin 100 → ∃ r : ResultData, calcTask2 values = (some r, "")) := by
  have h := calcTask2_of_parsed values H C S O W A V Qg hH hC hS hO hW hA hV hQ
  by_cases h1 : W + A ≥ F64.fin 100
  · rw [if_pos h1] at h
    refine ⟨?_, fun _ => h, fun h2 => absurd h1 h2⟩
    rw [h]
    exact ⟨fun _ => h1, fun _ => by decide⟩
  · rw [if_neg h1] at h
    refine ⟨?_, fun h2 => absurd h2 h1, fun _ => ⟨_, h⟩⟩
    rw [h]
    exact ⟨fun hne => absurd rfl hne, fun h2 => absurd h2 h1⟩

/-- Task 2 at `W = 60`, `A = 40` is rejected with the message on `W + A`; scenario
S4 (`W = 10`, `A = 15`) is accepted with the empty message. -/
theorem calcTask2_validation_witness :
    calcTask2 [("H", "5"), ("C", "75"), ("S", "2"), ("O", "8"), ("W", "60"), ("A", "40"),
      ("V", "300"), ("Qg", "30")] = (none, "W + A має бути < 100.") ∧
    ((calcTask2 s4).2 ≠ "" ↔ F64.fin 10 + F64.fin 15 ≥ F64.fin 100) ∧
    ∃ r : ResultData, calcTask2 s4 = (some r, "") :=
  ⟨(calcTask2_validation _ (F64.fin 5) (F64.fin 75) (F64.fin 2) (F64.fin 8) (F64.fin 60)
      (F64.fin 40) (F64.fin 300) (F64.fin 30) (by decide!) (by decide!) (by decide!)
      (by decide!) (by decide!) (by decide!) (by decide!) (by decide!)).2.1 (by decide!),
   (calcTask2_validation s4 (F64.fin 5) (F64.fin 75) (F64.fin 2) (F64.fin 8) (F64.fin 10)
      (F64.fin 15) (F64.fin 300) (F64.fin 30) (by decide!) (by decide!) (by decide!)
      (by decide!) (by decide!) (by decide!) (by decide!) (by decide!)).1,
   (calcTask2_validation s4 (F64.fin 5) (F64.fin 75) (F64.fin 2) (F64.fin 8) (F64.fin 10)
      (F64.fin 15) (F64.fin 300) (F64.fin 30) (by decide!) (by decide!) (by decide!)
      (by decide!) (by decide!) (by decide!) (by decide!) (by decide!)).2.2 (by decide!)⟩

/-! ## Outcomes -/

/-- The outcome of `calcTask1` is a result with the empty message or no result with
a non-empty message. -/
theorem calcTask1_outcome (values : Values) :
    (∃ r : ResultData, calcTask1 values = (some r, "")) ∨
      (∃ m : String, m ≠ "" ∧ calcTask1 values = (none, m)) := by
  unfold calcTask1
  rcases parsePercent values "H" true with ⟨H, e1⟩
  rcases parsePercent values "C" true with ⟨C, e2⟩
  rcases parsePercent values "S" true with ⟨S, e3⟩
  rcases parsePercent values "N" true with ⟨N, e4⟩
  rcases parsePercent values "O" true with ⟨O, e5⟩
  rcases parsePercent values "W" true with ⟨W, e6⟩
  rcases parsePercent values "A" true with ⟨A, e7⟩
  dsimp only
  by_cases h1 : e1 = ""
  swap
  · exact Or.inr ⟨e1, h1, if_pos h1⟩
  subst h1
  rw [if_neg (fun h => h rfl)]
  by_cases h2 : e2 = ""
  swap
  · exact Or.inr ⟨e2, h2, if_pos h2⟩
  subst h2
  rw [if_neg (fun h => h rfl)]
  by_cases h3 : e3 = ""
  swap
  · exact Or.inr ⟨e3, h3, if_pos h3⟩
  subst h3
  rw [if_neg (fun h => h rfl)]
  by_cases h4 : e4 = ""
  swap
  · exact Or.inr ⟨e4, h4, if_pos h4⟩
  subst h4
  rw [if_neg (fun h => h rfl)]
  by_cases h5 : e5 = ""
  swap
  · exact Or.inr ⟨e5, h5, if_pos h5⟩
  subst h5
  rw [if_neg (fun h => h rfl)]
  by_cases h6 : e6 = ""
  swap
  · exact Or.inr ⟨e6, h6, if_pos h6⟩
  subst h6
  rw [if_neg (fun h => h rfl)]
  by_cases h7 : e7 = ""
  swap
  · exact Or.inr ⟨e7, h7, if_pos h7⟩
  subst h7
  rw [if_neg (fun h => h rfl)]
  by_cases hW : W ≥ F64.fin 100
  · exact Or.inr ⟨_, by decide, if_pos hW⟩
  rw [if_neg hW]
  by_cases hWA : W + A ≥ F64.fin 100
  · exact Or.inr ⟨_, by decide, if_pos hWA⟩
  rw [if_neg hWA]
  exact Or.inl ⟨_, rfl⟩

/-- The outcome of `calcTask2` is a result with the empty message or no result with
a non-empty message. -/
theorem calcTask2_outcome (values : Values) :
    (∃ r : ResultData, calcTask2 values = (some r, "")) ∨
      (∃ m : String, m ≠ "" ∧ calcTask2 values = (none, m)) := by
  unfold calcTask2
  rcases parsePercent values "H" true with ⟨H, e1⟩
  rcases parsePercent values "C" true with ⟨C, e2⟩
  rcases parsePercent values "S" true with ⟨S, e3⟩
  rcases parsePercent values "O" true with ⟨O, e4⟩
  rcases parsePercent values "W" true with ⟨W, e5⟩
  rcases parsePercent values "A" true with ⟨A, e6⟩
  rcases parsePercent values "V" true with ⟨V, e7⟩
  rcases parsePercent values "Qg" true with ⟨Qg, e8⟩
  dsimp only
  by_cases h1 : e1 = ""
  swap
  · exact Or.inr ⟨e1, h1, if_pos h1⟩
  subst h1
  rw [if_neg (fun h => h rfl)]
  by_cases h2 : e2 = ""
  swap
  · exact Or.inr ⟨e2, h2, if_pos h2⟩
  subst h2
  rw [if_neg (fun h => h rfl)]
  by_cases h3 : e3 = ""
  swap
  · exact Or.inr ⟨e3, h3, if_pos h3⟩
  subst h3
  rw [if_neg (fun h => h rfl)]
  by_cases h4 : e4 = ""
  swap
  · exact Or.inr ⟨e4, h4, if_pos h4⟩
  subst h4
  rw [if_neg (fun h => h rfl)]
  by_cases h5 : e5 = ""
  swap
  · exact Or.inr ⟨e5, h5, if_pos h5⟩
  subst h5
  rw [if_neg (fun h => h rfl)]
  by_cases h6 : e6 = ""
  swap
  · exact Or.inr ⟨e6, h6, if_pos h6⟩
  subst h6
  rw [if_neg (fun h => h rfl)]
  by_cases h7 : e7 = ""
  swap
  · exact Or.inr ⟨e7, h7, if_pos h7⟩
  subst h7
  rw [if_neg (fun h => h rfl)]
  by_cases h8 : e8 = ""
  swap
  · exact Or.inr ⟨e8, h8, if_pos h8⟩
  subst h8
  rw [if_neg (fun h => h rfl)]
  by_cases hWA : W + A ≥ F64.fin 100
  · exact Or.inr ⟨_, by decide, if_pos hWA⟩
  rw [if_neg hWA]
  exact Or.inl ⟨_, rfl⟩

/-- C7: for every input mapping, `calcTask1` and `calcTask2` each return either a
result with the empty message or no result with a non-empty message; a result never
comes with a non-empty message, and a missing result never with the empty one. -/
theorem calcTask_result_xor_message (values : Values) :
    (((∃ r : ResultData, calcTask1 values = (some r, "")) ∨
        (∃ m : String, m ≠ "" ∧ calcTask1 values = (none, m))) ∧
      ¬ ((calcTask1 values).1 ≠ none ∧ (calcTask1 values).2 ≠ "") ∧
      ¬ ((calcTask1 values).1 = none ∧ (calcTask1 values).2 = "")) ∧
    (((∃ r : ResultData, calcTask2 values = (some r, "")) ∨
        (∃ m : String, m ≠ "" ∧ calcTask2 values = (none, m))) ∧
      ¬ ((calcTask2 values).1 ≠ none ∧ (calcTask2 values).2 ≠ "") ∧
      ¬ ((calcTask2 values).1 = none ∧ (calcTask2 values).2 = "")) := by
  refine ⟨⟨calcTask1_outcome values, ?_, ?_⟩, ⟨calcTask2_outcome values, ?_, ?_⟩⟩
  · rcases calcTask1_outcome values with ⟨r, h⟩ | ⟨m, hm, h⟩ <;> rw [h] <;> simp
  · rcases calcTask1_outcome values with ⟨r, h⟩ | ⟨m, hm, h⟩
    · rw [h]
      simp
    · rw [h]
      simp [hm]
  · rcases calcTask2_outcome values with ⟨r, h⟩ | ⟨m, hm, h⟩ <;> rw [h] <;> simp
  · rcases calcTask2_outcome values with ⟨r, h⟩ | ⟨m, hm, h⟩
    · rw [h]
      simp
    · rw [h]
      simp [hm]

/-! ## The messages -/

/-- A missing-field message is not empty. -/
theorem msgRequired_ne_empty (key : String) : msgRequired key ≠ "" := by
  intro h
  have := congrArg String.length h
  simp only [msgRequired, String.length_append] at this
  have h5 : "Поле ".length = 5 := by decide
  have h0 : "".length = 0 := by decide
  omega

/-- A non-numeric message is not empty. -/
theorem msgNumber_ne_empty (key : String) : msgNumber key ≠ "" := by
  intro h
  have := congrArg String.length h
  simp only [msgNumber, String.length_append] at this
  have h5 : "Поле ".length = 5 := by decide
  have h0 : "".length = 0 := by decide
  omega

/-! ## The three outcomes of `parsePercent` -/

/-- A missing field gives the missing-field message when required, zero otherwise. -/
theorem parsePercent_of_missing (values : Values) (key : String) (h : Missing values key) :
    parsePercent values key true = (F64.fin 0, msgRequired key) ∧
    parsePercent values key false = (F64.fin 0, "") := by
  unfold Missing at h
  simp [parsePercent, h]

/-- A field that is present and not a number gives the non-numeric message. -/
theorem parsePercent_of_nonNumeric (values : Values) (key : String) (required : Bool)
    (h : NonNumeric values key) :
    parsePercent values key required = (F64.fin 0, msgNumber key) := by
  obtain ⟨h1, h2⟩ := h
  simp [parsePercent, h1, h2]

/-- A field that is neither missing nor non-numeric gives a value and no message. -/
theorem parsePercent_of_value (values : Values) (key : String) (required : Bool)
    (h1 : ¬ Missing values key) (h2 : ¬ NonNumeric values key) :
    ∃ v : F64, parsePercent values key required = (v, "") := by
  unfold Missing at h1
  unfold NonNumeric at h2
  cases hp : ParseFloat (ReplaceAll (TrimSpace (values.get key))) with
  | none => exact absurd ⟨h1, hp⟩ h2
  | some v => exact ⟨v, by simp [parsePercent, h1, hp]⟩


/-- The last three code points of a missing-field message, from the end. -/
theorem msgRequired_tail (key : String) :
    ((msgRequired key).data.reverse).take 3 = ['.', 'м', 'и'] := by
  have hb : (" є обов\x27язковим." : String).data.reverse
      = '.' :: 'м' :: 'и' :: (" є обов\x27язков" : String).data.reverse := by decide
  simp only [msgRequired, String.data_append, List.reverse_append, hb]
  rfl

/-- The last three code points of a non-numeric message, from the end. -/
theorem msgNumber_tail (key : String) :
    ((msgNumber key).data.reverse).take 3 = ['.', 'м', 'о'] := by
  have hb : (" має бути числом." : String).data.reverse
      = '.' :: 'м' :: 'о' :: (" має бути числ" : String).data.reverse := by decide
  simp only [msgNumber, String.data_append, List.reverse_append, hb]
  rfl

/-- No non-numeric message is a missing-field message, whatever the keys. -/
theorem msgNumber_ne_msgRequired (k k' : String) : msgNumber k ≠ msgRequired k' := by
  intro h
  have h1 := msgNumber_tail k
  rw [h, msgRequired_tail] at h1
  exact absurd h1 (by decide)

/-- A non-numeric message starts with the letter of `Поле`. -/
theorem msgNumber_head (key : String) : (msgNumber key).data.head? = some 'П' := by
  simp only [msgNumber, String.data_append]
  rfl

/-- A missing-field message starts with the letter of `Поле`. -/
theorem msgRequired_head (key : String) : (msgRequired key).data.head? = some 'П' := by
  simp only [msgRequired, String.data_append]
  rfl


/-! ## Trimming and comma replacement -/

/-- Dropping a leading run that is the whole list leaves nothing. -/
theorem dropWhile_all {α : Type} (p : α → Bool) (l : List α) (h : ∀ c ∈ l, p c = true) :
    l.dropWhile p = [] := by
  induction l with
  | nil => rfl
  | cons a l ih =>
    have ha : p a = true := h a (List.mem_cons_self a l)
    rw [List.dropWhile_cons, if_pos ha]
    exact ih fun c hc => h c (List.mem_cons_of_mem a hc)

/-- A leading block that is dropped entirely does not matter. -/
theorem dropWhile_append_all {α : Type} (p : α → Bool) (l x : List α)
    (h : ∀ c ∈ l, p c = true) : (l ++ x).dropWhile p = x.dropWhile p := by
  induction l with
  | nil => rfl
  | cons a l ih =>
    have ha : p a = true := h a (List.mem_cons_self a l)
    rw [List.cons_append, List.dropWhile_cons, if_pos ha]
    exact ih fun c hc => h c (List.mem_cons_of_mem a hc)

/-- When something of the first block survives, the second block is untouched. -/
theorem dropWhile_append_rest {α : Type} (p : α → Bool) (a b : List α)
    (h : a.dropWhile p ≠ []) : (a ++ b).dropWhile p = a.dropWhile p ++ b := by
  induction a with
  | nil => exact absurd rfl h
  | cons x a ih =>
    by_cases hx : p x = true
    · rw [List.dropWhile_cons, if_pos hx] at h
      rw [List.cons_append, List.dropWhile_cons, if_pos hx, List.dropWhile_cons, if_pos hx]
      exact ih h
    · rw [List.cons_append, List.dropWhile_cons, if_neg hx, List.dropWhile_cons, if_neg hx]
      rfl

/-- Dropping commutes with a map that respects the test. -/
theorem dropWhile_map {α : Type} (p : α → Bool) (f : α → α) (hf : ∀ c, p (f c) = p c)
    (l : List α) : (l.map f).dropWhile p = (l.dropWhile p).map f := by
  induction l with
  | nil => rfl
  | cons a l ih =>
    rw [List.map_cons, List.dropWhile_cons, List.dropWhile_cons, hf a]
    by_cases ha : p a = true
    · rw [if_pos ha, if_pos ha]
      exact ih
    · rw [if_neg ha, if_neg ha]
      rfl

/-- A text of white space only trims to the empty text. -/
theorem trimSpaceChars_all (cs : List Char) (h : ∀ c ∈ cs, isSpace c = true) :
    trimSpaceChars cs = [] := by
  unfold trimSpaceChars
  rw [dropWhile_all isSpace cs h]
  rfl

/-- White space added on both sides is trimmed away. -/
theorem trimSpaceChars_pad (l t r : List Char) (hl : ∀ c ∈ l, isSpace c = true)
    (hr : ∀ c ∈ r, isSpace c = true) :
    trimSpaceChars (l ++ t ++ r) = trimSpaceChars t := by
  unfold trimSpaceChars
  rw [List.append_assoc, dropWhile_append_all isSpace l _ hl]
  by_cases ht : t.dropWhile isSpace = []
  · have hall : ∀ c ∈ t, isSpace c = true := by
      intro c hc
      have := (List.dropWhile_eq_nil_iff.mp ht) c hc
      simpa using this
    have hall' : ∀ c ∈ t ++ r, isSpace c = true := by
      intro c hc
      rcases List.mem_append.mp hc with h | h
      · exact hall c h
      · exact hr c h
    rw [dropWhile_all isSpace _ hall', ht]
  · rw [dropWhile_append_rest isSpace t r ht, List.reverse_append,
      dropWhile_append_all isSpace r.reverse _ (fun c hc => hr c (List.mem_reverse.mp hc))]

/-- Trimming commutes with a map that respects white space. -/
theorem trimSpaceChars_map (f : Char → Char) (hf : ∀ c, isSpace (f c) = isSpace c)
    (cs : List Char) : trimSpaceChars (cs.map f) = (trimSpaceChars cs).map f := by
  unfold trimSpaceChars
  rw [dropWhile_map isSpace f hf, ← List.map_reverse, dropWhile_map isSpace f hf,
    List.map_reverse]

/-- Replacing a comma by a dot does not change whether a code point is white space. -/
theorem isSpace_comma_dot (c : Char) :
    isSpace (if c = ',' then '.' else c) = isSpace c := by
  by_cases h : c = ','
  · rw [if_pos h, h]
    decide
  · rw [if_neg h]

/-- The function `TrimSpace` ignores white space added on both sides. -/
theorem TrimSpace_pad (l t r : String) (hl : ∀ c ∈ l.data, isSpace c = true)
    (hr : ∀ c ∈ r.data, isSpace c = true) : TrimSpace (l ++ t ++ r) = TrimSpace t := by
  unfold TrimSpace
  rw [String.data_append, String.data_append, trimSpaceChars_pad l.data t.data r.data hl hr]

/-- Trimming and comma replacement commute. -/
theorem TrimSpace_ReplaceAll (t : String) :
    TrimSpace (ReplaceAll t) = ReplaceAll (TrimSpace t) := by
  unfold TrimSpace ReplaceAll
  simp only [trimSpaceChars_map _ isSpace_comma_dot]

/-- Comma replacement is idempotent. -/
theorem ReplaceAll_ReplaceAll (t : String) : ReplaceAll (ReplaceAll t) = ReplaceAll t := by
  unfold ReplaceAll
  simp only [List.map_map]
  congr 1
  apply List.map_congr_left
  intro c _
  by_cases h : c = ','
  · simp [h]
  · simp [h]

/-- Comma replacement keeps a text empty or non-empty. -/
theorem ReplaceAll_eq_empty (t : String) : ReplaceAll t = "" ↔ t = "" := by
  unfold ReplaceAll
  constructor
  · intro h
    have h' := congrArg String.data h
    simp only [List.map_eq_nil_iff] at h'
    exact String.ext h'
  · intro h
    rw [h]
    rfl

/-- The text of the only key of a one-entry mapping. -/
theorem Values.get_singleton (key t : String) : Values.get [(key, t)] key = t := by
  simp [Values.get, List.lookup]


/-! ## The first field that does not parse decides the message -/

/-- When some field of Task 1 does not parse, `calcTask1` returns no result and the
message of the first such field. -/
theorem calcTask1_firstError (values : Values)
    (h : firstError values task1Fields ≠ "") :
    calcTask1 values = (none, firstError values task1Fields) := by
  revert h
  unfold calcTask1
  simp only [firstError, task1Fields]
  rcases parsePercent values "H" true with ⟨H, e1⟩
  rcases parsePercent values "C" true with ⟨C, e2⟩
  rcases parsePercent values "S" true with ⟨S, e3⟩
  rcases parsePercent values "N" true with ⟨N, e4⟩
  rcases parsePercent values "O" true with ⟨O, e5⟩
  rcases parsePercent values "W" true with ⟨W, e6⟩
  rcases parsePercent values "A" true with ⟨A, e7⟩
  dsimp only
  by_cases h1 : e1 = ""
  swap
  · simp [h1]
  subst h1
  simp only [ne_eq, not_true_eq_false, if_false]
  by_cases h2 : e2 = ""
  swap
  · simp [h2]
  subst h2
  simp only [ne_eq, not_true_eq_false, if_false]
  by_cases h3 : e3 = ""
  swap
  · simp [h3]
  subst h3
  simp only [ne_eq, not_true_eq_false, if_false]
  by_cases h4 : e4 = ""
  swap
  · simp [h4]
  subst h4
  simp only [ne_eq, not_true_eq_false, if_false]
  by_cases h5 : e5 = ""
  swap
  · simp [h5]
  subst h5
  simp only [ne_eq, not_true_eq_false, if_false]
  by_cases h6 : e6 = ""
  swap
  · simp [h6]
  subst h6
  simp only [ne_eq, not_true_eq_false, if_false]
  by_cases h7 : e7 = ""
  swap
  · simp [h7]
  subst h7
  simp only [ne_eq, not_true_eq_false, if_false]
  simp

/-- When some field of Task 2 does not parse, `calcTask2` returns no result and the
message of the first such field. -/
theorem calcTask2_firstError (values : Values)
    (h : firstError values task2Fields ≠ "") :
    calcTask2 values = (none, firstError values task2Fields) := by
  revert h
  unfold calcTask2
  simp only [firstError, task2Fields]
  rcases parsePercent values "H" true with ⟨H, e1⟩
  rcases parsePercent values "C" true with ⟨C, e2⟩
  rcases parsePercent values "S" true with ⟨S, e3⟩
  rcases parsePercent values "O" true with ⟨O, e4⟩
  rcases parsePercent values "W" true with ⟨W, e5⟩
  rcases parsePercent values "A" true with ⟨A, e6⟩
  rcases parsePercent values "V" true with ⟨V, e7⟩
  rcases parsePercent values "Qg" true with ⟨Qg, e8⟩
  dsimp only
  by_cases h1 : e1 = ""
  swap
  · simp [h1]
  subst h1
  simp only [ne_eq, not_true_eq_false, if_false]
  by_cases h2 : e2 = ""
  swap
  · simp [h2]
  subst h2
  simp only [ne_eq, not_true_eq_false, if_false]
  by_cases h3 : e3 = ""
  swap
  · simp [h3]
  subst h3
  simp only [ne_eq, not_true_eq_false, if_false]
  by_cases h4 : e4 = ""
  swap
  · simp [h4]
  subst h4
  simp only [ne_eq, not_true_eq_false, if_false]
  by_cases h5 : e5 = ""
  swap
  · simp [h5]
  subst h5
  simp only [ne_eq, not_true_eq_false, if_false]
  by_cases h6 : e6 = ""
  swap
  · simp [h6]
  subst h6
  simp only [ne_eq, not_true_eq_false, if_false]
  by_cases h7 : e7 = ""
  swap
  · simp [h7]
  subst h7
  simp only [ne_eq, not_true_eq_false, if_false]
  by_cases h8 : e8 = ""
  swap
  · simp [h8]
  subst h8
  simp only [ne_eq, not_true_eq_false, if_false]
  simp

/-- Fields that parse are skipped: after them, the next field decides. -/
theorem firstError_skip (values : Values) (pre : List String) (k : String)
    (post : List String) (hpre : ∀ k' ∈ pre, (parsePercent values k' true).2 = "") :
    firstError values (pre ++ k :: post) =
      if (parsePercent values k true).2 ≠ "" then (parsePercent values k true).2
      else firstError values post := by
  induction pre with
  | nil => rfl
  | cons a pre ih =>
    have ha : (parsePercent values a true).2 = "" := hpre a (List.mem_cons_self a pre)
    rw [List.cons_append, firstError, if_neg (fun h => h ha)]
    exact ih fun k' hk' => hpre k' (List.mem_cons_of_mem a hk')

/-- A missing field with no non-numeric field before it: the first message is a
missing-field message. -/
theorem firstError_missing (values : Values) (pre : List String) (k : String)
    (post : List String) (hk : Missing values k)
    (hpre : ∀ k' ∈ pre, ¬ NonNumeric values k') :
    ∃ k0 : String, firstError values (pre ++ k :: post) = msgRequired k0 := by
  induction pre with
  | nil =>
    refine ⟨k, ?_⟩
    rw [List.nil_append, firstError, (parsePercent_of_missing values k hk).1]
    exact if_pos (msgRequired_ne_empty k)
  | cons a pre ih =>
    rw [List.cons_append, firstError]
    by_cases ha : Missing values a
    · refine ⟨a, ?_⟩
      rw [(parsePercent_of_missing values a ha).1]
      exact if_pos (msgRequired_ne_empty a)
    · obtain ⟨v, hv⟩ := parsePercent_of_value values a true ha
        (hpre a (List.mem_cons_self a pre))
      rw [hv, if_neg (fun h => h rfl)]
      exact ih fun k' hk' => hpre k' (List.mem_cons_of_mem a hk')

/-- A non-numeric field with no missing field before it: the first message is a
non-numeric message. -/
theorem firstError_nonNumeric (values : Values) (pre : List String) (k : String)
    (post : List String) (hk : NonNumeric values k)
    (hpre : ∀ k' ∈ pre, ¬ Missing values k') :
    ∃ k0 : String, firstError values (pre ++ k :: post) = msgNumber k0 := by
  induction pre with
  | nil =>
    refine ⟨k, ?_⟩
    rw [List.nil_append, firstError, parsePercent_of_nonNumeric values k true hk]
    exact if_pos (msgNumber_ne_empty k)
  | cons a pre ih =>
    rw [List.cons_append, firstError]
    by_cases ha : NonNumeric values a
    · refine ⟨a, ?_⟩
      rw [parsePercent_of_nonNumeric values a true ha]
      exact if_pos (msgNumber_ne_empty a)
    · obtain ⟨v, hv⟩ := parsePercent_of_value values a true
        (hpre a (List.mem_cons_self a pre)) ha
      rw [hv, if_neg (fun h => h rfl)]
      exact ih fun k' hk' => hpre k' (List.mem_cons_of_mem a hk')

/-- A key that is absent, or whose text is empty or white space only, is missing. -/
theorem missing_of_blank (values : Values) (key : String)
    (hblank : values.lookup key = none ∨
      ∃ t : String, values.lookup key = some t ∧ ∀ c ∈ t.data, isSpace c = true) :
    Missing values key := by
  unfold Missing Values.get
  rcases hblank with h | ⟨t, h, ht⟩
  · rw [h]
    decide
  · rw [h]
    unfold TrimSpace
    rw [Option.getD_some, trimSpaceChars_all t.data ht]

/-- The value of a one-entry mapping whose text trims to a number. -/
theorem parsePercent_singleton (key t t' : String) (required : Bool) (v : F64)
    (h1 : TrimSpace t = t') (h2 : t' ≠ "") (h3 : ParseFloat (ReplaceAll t') = some v) :
    parsePercent [(key, t)] key required = (v, "") := by
  simp [parsePercent, Values.get_singleton, h1, h2, h3]

/-! ## The parser -/

/-- C8 (as amended): when the key is absent, or its text is empty or white space
only, `parsePercent` returns zero with the missing-field message naming the key if
`required` is true, and zero with no message if it is false; and `calcTask1` and
`calcTask2` return that message and no result for such a field provided every
field they read before it parses. -/
theorem parsePercent_missing_field (values : Values) (key : String)
    (hblank : values.lookup key = none ∨
      ∃ t : String, values.lookup key = some t ∧ ∀ c ∈ t.data, isSpace c = true) :
    parsePercent values key true = (F64.fin 0, "Поле " ++ key ++ " є обов\x27язковим.") ∧
    parsePercent values key false = (F64.fin 0, "") ∧
    (∀ pre post : List String, task1Fields = pre ++ key :: post →
      (∀ k' ∈ pre, (parsePercent values k' true).2 = "") →
      calcTask1 values = (none, "Поле " ++ key ++ " є обов\x27язковим.")) ∧
    (∀ pre post : List String, task2Fields = pre ++ key :: post →
      (∀ k' ∈ pre, (parsePercent values k' true).2 = "") →
      calcTask2 values = (none, "Поле " ++ key ++ " є обов\x27язковим.")) := by
  have hm := missing_of_blank values key hblank
  have hp := parsePercent_of_missing values key hm
  have hne : (parsePercent values key true).2 ≠ "" := by
    rw [hp.1]
    exact msgRequired_ne_empty key
  refine ⟨hp.1, hp.2, ?_, ?_⟩
  · intro pre post hsplit hpre
    have hf := firstError_skip values pre key post hpre
    rw [if_pos hne, ← hsplit] at hf
    have h := calcTask1_firstError values (by rw [hf]; exact hne)
    rw [h, hf, hp.1]
    rfl
  · intro pre post hsplit hpre
    have hf := firstError_skip values pre key post hpre
    rw [if_pos hne, ← hsplit] at hf
    have h := calcTask2_firstError values (by rw [hf]; exact hne)
    rw [h, hf, hp.1]
    rfl

/-- Scenario S5 for C8: Task 2 with `Qg` omitted, all other fields as in S4, returns
the missing-field message for `Qg` and no result; a white-space text for an
optional field gives zero. -/
theorem parsePercent_missing_field_witness :
    calcTask2 s5 = (none, "Поле Qg є обов\x27язковим.") ∧
    parsePercent s5 "Qg" true = (F64.fin 0, "Поле Qg є обов\x27язковим.") ∧
    parsePercent [("N", " \t ")] "N" false = (F64.fin 0, "") :=
  ⟨(parsePercent_missing_field s5 "Qg" (Or.inl (by decide))).2.2.2
      ["H", "C", "S", "O", "W", "A", "V"] [] (by decide) (by decide!),
   (parsePercent_missing_field s5 "Qg" (Or.inl (by decide))).1,
   (parsePercent_missing_field [("N", " \t ")] "N"
      (Or.inr ⟨" \t ", by decide, by decide⟩)).2.1⟩

/-- C8, the claim as stated fails: in this Task 2 input `Qg` is absent and is the
first (and only) missing field, every field read before it is present, and yet
`calcTask2` returns the non-numeric message of `H`, not the missing-field message
of `Qg`. -/
theorem calcTask2_first_missing_counterexample :
    task2Fields = ["H", "C", "S", "O", "W", "A", "V"] ++ "Qg" :: [] ∧
    List.lookup "Qg" s5BadH = none ∧
    (∀ k' ∈ ["H", "C", "S", "O", "W", "A", "V"], ¬ Missing s5BadH k') ∧
    calcTask2 s5BadH = (none, "Поле H має бути числом.") ∧
    calcTask2 s5BadH ≠ (none, "Поле Qg є обов\x27язковим.") := by
  decide!

/-- C9: `parsePercent` gives the same pair for a text, for the text with white
space added on both sides, and for the text with every comma replaced by a dot;
`1,5`, `1.5` and both with surrounding blanks yield 1.5, `4,2` yields 4.2 and
`1,000` yields 1. -/
theorem parsePercent_whitespace_comma (key : String) (required : Bool) (t l r : String)
    (hl : ∀ c ∈ l.data, isSpace c = true) (hr : ∀ c ∈ r.data, isSpace c = true) :
    parsePercent [(key, l ++ t ++ r)] key required = parsePercent [(key, t)] key required ∧
    parsePercent [(key, ReplaceAll t)] key required = parsePercent [(key, t)] key required ∧
    parsePercent [(key, "1,5")] key required = (F64.fin (15 / 10), "") ∧
    parsePercent [(key, "1.5")] key required = (F64.fin (15 / 10), "") ∧
    parsePercent [(key, "  1.5  ")] key required = (F64.fin (15 / 10), "") ∧
    parsePercent [(key, "  1,5  ")] key required = (F64.fin (15 / 10), "") ∧
    parsePercent [(key, "4,2")] key required = (F64.fin (42 / 10), "") ∧
    parsePercent [(key, "1,000")] key required = (F64.fin 1, "") := by
  refine ⟨?_, ?_, ?_, ?_, ?_, ?_, ?_, ?_⟩
  · simp only [parsePercent, Values.get_singleton, TrimSpace_pad l t r hl hr]
  · simp only [parsePercent, Values.get_singleton, TrimSpace_ReplaceAll,
      ReplaceAll_ReplaceAll, ReplaceAll_eq_empty]
  · exact parsePercent_singleton key _ "1,5" required _ (by decide) (by decide) (by decide!)
  · exact parsePercent_singleton key _ "1.5" required _ (by decide) (by decide) (by decide!)
  · exact parsePercent_singleton key _ "1.5" required _ (by decide) (by decide) (by decide!)
  · exact parsePercent_singleton key _ "1,5" required _ (by decide) (by decide) (by decide!)
  · exact parsePercent_singleton key _ "4,2" required _ (by decide) (by decide) (by decide!)
  · exact parsePercent_singleton key _ "1,000" required _ (by decide) (by decide) (by decide!)

/-- The text `4,2` for C9, padded with a blank and a tab and read under the key
`H`: the three ways of writing it give the same pair, the value 4.2. -/
theorem parsePercent_whitespace_comma_witness :
    parsePercent [("H", " " ++ "4,2" ++ "\t")] "H" true = parsePercent [("H", "4,2")] "H" true ∧
    parsePercent [("H", ReplaceAll "4,2")] "H" true = parsePercent [("H", "4,2")] "H" true ∧
    parsePercent [("H", "4,2")] "H" true = (F64.fin (42 / 10), "") ∧
    ReplaceAll "4,2" = "4.2" :=
  ⟨(parsePercent_whitespace_comma "H" true "4,2" " " "\t" (by decide) (by decide)).1,
   (parsePercent_whitespace_comma "H" true "4,2" " " "\t" (by decide) (by decide)).2.1,
   (parsePercent_whitespace_comma "H" true "4,2" " " "\t" (by decide)
      (by decide)).2.2.2.2.2.2.1,
   by decide⟩

/-! ## Priority of the messages -/

/-- A non-numeric message is neither of the two domain messages. -/
theorem msgNumber_ne_domain (k : String) :
    msgNumber k ≠ "W має бути < 100." ∧ msgNumber k ≠ "W + A має бути < 100." := by
  constructor
  · intro h
    have h1 := msgNumber_head k
    rw [h] at h1
    exact absurd h1 (by decide)
  · intro h
    have h1 := msgNumber_head k
    rw [h] at h1
    exact absurd h1 (by decide)

/-- C10 (as amended): in `calcTask1` and `calcTask2`, when a required field is
missing and no field read before it is non-numeric, the message is a missing-field
message; and when a field is non-numeric and no field read before it is missing
(so in particular when the remaining fields are values, whether or not they violate
a domain constraint), the message is a non-numeric message and not a domain
message. -/
theorem calcTask_error_priority (values : Values) (pre : List String) (k : String)
    (post : List String) :
    (task1Fields = pre ++ k :: post → Missing values k →
      (∀ k' ∈ pre, ¬ NonNumeric values k') →
      ∃ k0 : String, calcTask1 values = (none, msgRequired k0)) ∧
    (task1Fields = pre ++ k :: post → NonNumeric values k →
      (∀ k' ∈ pre, ¬ Missing values k') →
      (∃ k0 : String, calcTask1 values = (none, msgNumber k0)) ∧
        (calcTask1 values).2 ≠ "W має бути < 100." ∧
        (calcTask1 values).2 ≠ "W + A має бути < 100.") ∧
    (task2Fields = pre ++ k :: post → Missing values k →
      (∀ k' ∈ pre, ¬ NonNumeric values k') →
      ∃ k0 : String, calcTask2 values = (none, msgRequired k0)) ∧
    (task2Fields = pre ++ k :: post → NonNumeric values k →
      (∀ k' ∈ pre, ¬ Missing values k') →
      (∃ k0 : String, calcTask2 values = (none, msgNumber k0)) ∧
        (calcTask2 values).2 ≠ "W + A має бути < 100.") := by
  refine ⟨?_, ?_, ?_, ?_⟩
  · intro hsplit hk hpre
    obtain ⟨k0, h0⟩ := firstError_missing values pre k post hk hpre
    rw [← hsplit] at h0
    have h := calcTask1_firstError values (by rw [h0]; exact msgRequired_ne_empty k0)
    exact ⟨k0, by rw [h, h0]⟩
  · intro hsplit hk hpre
    obtain ⟨k0, h0⟩ := firstError_nonNumeric values pre k post hk hpre
    rw [← hsplit] at h0
    have h := calcTask1_firstError values (by rw [h0]; exact msgNumber_ne_empty k0)
    rw [h0] at h
    refine ⟨⟨k0, h⟩, ?_, ?_⟩
    · rw [h]
      exact (msgNumber_ne_domain k0).1
    · rw [h]
      exact (msgNumber_ne_domain k0).2
  · intro hsplit hk hpre
    obtain ⟨k0, h0⟩ := firstError_missing values pre k post hk hpre
    rw [← hsplit] at h0
    have h := calcTask2_firstError values (by rw [h0]; exact msgRequired_ne_empty k0)
    exact ⟨k0, by rw [h, h0]⟩
  · intro hsplit hk hpre
    obtain ⟨k0, h0⟩ := firstError_nonNumeric values pre k post hk hpre
    rw [← hsplit] at h0
    have h := calcTask2_firstError values (by rw [h0]; exact msgNumber_ne_empty k0)
    rw [h0] at h
    refine ⟨⟨k0, h⟩, ?_⟩
    rw [h]
    exact (msgNumber_ne_domain k0).2

/-- Inputs for C10.  Task 1 with `H` missing and `C` not a number gives a
missing-field message; Task 1 with `O` not a number and `W + A = 100` gives a
non-numeric message, not the domain message; Task 2 with `Qg` missing, and Task 2
with `Qg` not a number and `W + A = 100`, likewise. -/
theorem calcTask_error_priority_witness :
    (∃ k0 : String, calcTask1 missingHBadC = (none, msgRequired k0)) ∧
    ((∃ k0 : String, calcTask1 s3BadO = (none, msgNumber k0)) ∧
      (calcTask1 s3BadO).2 ≠ "W має бути < 100." ∧
      (calcTask1 s3BadO).2 ≠ "W + A має бути < 100.") ∧
    (∃ k0 : String, calcTask2 s5 = (none, msgRequired k0)) ∧
    ((∃ k0 : String, calcTask2 task2BadQg = (none, msgNumber k0)) ∧
      (calcTask2 task2BadQg).2 ≠ "W + A має бути < 100.") :=
  ⟨(calcTask_error_priority missingHBadC [] "H" ["C", "S", "N", "O", "W", "A"]).1
      (by decide) (by decide!) (by decide!),
   (calcTask_error_priority s3BadO ["H", "C", "S", "N"] "O" ["W", "A"]).2.1
      (by decide) (by decide!) (by decide!),
   (calcTask_error_priority s5 ["H", "C", "S", "O", "W", "A", "V"] "Qg" []).2.2.1
      (by decide) (by decide!) (by decide!),
   (calcTask_error_priority task2BadQg ["H", "C", "S", "O", "W", "A", "V"] "Qg" []).2.2.2
      (by decide) (by decide!) (by decide!)⟩

/-- C10, the claim as stated fails: in this Task 1 input the required field `C` is
missing and the other field `H` is non-numeric, and the message returned is the
non-numeric message of `H`, which is not a missing-field message of any key. -/
theorem calcTask1_missing_priority_counterexample :
    Missing badHMissingC "C" ∧ NonNumeric badHMissingC "H" ∧
    calcTask1 badHMissingC = (none, "Поле H має бути числом.") ∧
    ¬ ∃ k0 : String, (calcTask1 badHMissingC).2 = msgRequired k0 := by
  have h : calcTask1 badHMissingC = (none, msgNumber "H") := by decide!
  refine ⟨by decide!, by decide!, h, ?_⟩
  rintro ⟨k0, h0⟩
  rw [h] at h0
  exact msgNumber_ne_msgRequired "H" k0 h0

/-! ## What `ParseFloat` lets through -/

/-- A value that `ParseFloat` returns is finite, or the text is one of the special
spellings and the value is the one `special` gives. -/
theorem ParseFloat_some (s : String) (v : F64) (h : ParseFloat s = some v) :
    v.isFinite = true ∨ special s.data = some v := by
  unfold ParseFloat at h
  dsimp only at h
  cases hsp : special s.data with
  | some u =>
    rw [hsp] at h
    right
    simpa using h
  | none =>
    rw [hsp] at h
    left
    dsimp only at h
    split at h
    · exact absurd h (by simp)
    · split_ifs at h <;>
        (simp only [Option.some.injEq] at h
         rw [← h]
         rfl)

/-- A text that spells `inf` or `infinity` in some letter case does not start with
a sign. -/
theorem no_sign_of_inf (t : List Char)
    (h : t.map foldCase = ['i', 'n', 'f'] ∨
      t.map foldCase = ['i', 'n', 'f', 'i', 'n', 'i', 't', 'y']) :
    (∀ r : List Char, t ≠ '+' :: r) ∧ (∀ r : List Char, t ≠ '-' :: r) := by
  constructor
  · intro r hr
    rw [hr, List.map_cons] at h
    rcases h with h | h
    · exact absurd (List.cons.inj h).1 (by decide)
    · exact absurd (List.cons.inj h).1 (by decide)
  · intro r hr
    rw [hr, List.map_cons] at h
    rcases h with h | h
    · exact absurd (List.cons.inj h).1 (by decide)
    · exact absurd (List.cons.inj h).1 (by decide)

/-- The texts for which `special` gives a value: `nan` in any letter case gives
NaN; `inf` or `infinity` in any letter case, bare or after `+`, gives the positive
infinity, and after `-` the negative infinity. -/
theorem special_iff (cs : List Char) (v : F64) :
    special cs = some v ↔
      (v = F64.nan ∧ cs.map foldCase = ['n', 'a', 'n']) ∨
      (v = F64.posInf ∧ ∃ t : List Char, (cs = t ∨ cs = '+' :: t) ∧
        (t.map foldCase = ['i', 'n', 'f'] ∨
          t.map foldCase = ['i', 'n', 'f', 'i', 'n', 'i', 't', 'y'])) ∨
      (v = F64.negInf ∧ ∃ t : List Char, cs = '-' :: t ∧
        (t.map foldCase = ['i', 'n', 'f'] ∨
          t.map foldCase = ['i', 'n', 'f', 'i', 'n', 'i', 't', 'y'])) := by
  unfold special
  split
  · rename_i t
    simp only [Bool.or_eq_true, decide_eq_true_eq]
    constructor
    · intro h
      split_ifs at h with hb
      simp only [Option.some.injEq] at h
      exact Or.inr (Or.inl ⟨h.symm, t, Or.inr rfl, hb⟩)
    · rintro (⟨-, h⟩ | ⟨rfl, r, hr, hb⟩ | ⟨-, r, hr, -⟩)
      · rw [List.map_cons] at h
        exact absurd (List.cons.inj h).1 (by decide)
      · rcases hr with hr | hr
        · exact absurd hr.symm ((no_sign_of_inf r hb).1 t)
        · have : t = r := (List.cons.inj hr).2
          subst this
          rw [if_pos hb]
      · exact absurd (List.cons.inj hr).1 (by decide)
  · rename_i t
    simp only [Bool.or_eq_true, decide_eq_true_eq]
    constructor
    · intro h
      split_ifs at h with hb
      simp only [Option.some.injEq] at h
      exact Or.inr (Or.inr ⟨h.symm, t, rfl, hb⟩)
    · rintro (⟨-, h⟩ | ⟨-, r, hr, hb⟩ | ⟨rfl, r, hr, hb⟩)
      · rw [List.map_cons] at h
        exact absurd (List.cons.inj h).1 (by decide)
      · rcases hr with hr | hr
        · exact absurd hr.symm ((no_sign_of_inf r hb).2 t)
        · exact absurd (List.cons.inj hr).1 (by decide)
      · have : t = r := (List.cons.inj hr).2
        subst this
        rw [if_pos hb]
  · rename_i h1 h2
    simp only [Bool.or_eq_true, decide_eq_true_eq]
    constructor
    · intro h
      split_ifs at h with hb hn
      · simp only [Option.some.injEq] at h
        exact Or.inr (Or.inl ⟨h.symm, cs, Or.inl rfl, hb⟩)
      · simp only [Option.some.injEq] at h
        exact Or.inl ⟨h.symm, hn⟩
    · rintro (⟨rfl, h⟩ | ⟨rfl, r, hr, hb⟩ | ⟨-, r, hr, -⟩)
      · have hb : ¬ (cs.map foldCase = ['i', 'n', 'f'] ∨
            cs.map foldCase = ['i', 'n', 'f', 'i', 'n', 'i', 't', 'y']) := by
          rw [h]
          decide
        rw [if_neg hb, if_pos h]
      · rcases hr with hr | hr
        · subst hr
          rw [if_pos hb]
        · exact absurd hr (h1 r)
      · exact absurd hr (h2 r)

/-- What `foldCase` identifies: a character folds to one of the small letters of
`nan` and `infinity` exactly when it is that letter or its capital. -/
theorem foldCase_letter (c : Char) :
    (foldCase c = 'i' ↔ c = 'i' ∨ c = 'I') ∧
    (foldCase c = 'n' ↔ c = 'n' ∨ c = 'N') ∧
    (foldCase c = 'f' ↔ c = 'f' ∨ c = 'F') ∧
    (foldCase c = 'a' ↔ c = 'a' ∨ c = 'A') ∧
    (foldCase c = 't' ↔ c = 't' ∨ c = 'T') ∧
    (foldCase c = 'y' ↔ c = 'y' ∨ c = 'Y') := by
  have key : ∀ n : Nat, c.toNat = n → c = Char.ofNat n := fun n h => by
    rw [← h, Char.ofNat_toNat]
  unfold foldCase
  by_cases h : 65 ≤ c.toNat ∧ c.toNat ≤ 90
  · rw [if_pos h]
    obtain ⟨h1, h2⟩ := h
    generalize hn : c.toNat = n at h1 h2
    have hc := key n hn
    subst hc
    clear hn key
    interval_cases n <;> decide
  · rw [if_neg h]
    refine ⟨⟨Or.inl, ?_⟩, ⟨Or.inl, ?_⟩, ⟨Or.inl, ?_⟩, ⟨Or.inl, ?_⟩, ⟨Or.inl, ?_⟩,
      ⟨Or.inl, ?_⟩⟩ <;>
    · rintro (e | e)
      · exact e
      · subst e
        exact absurd (by decide) h

/-- A field whose text, trimmed and with commas replaced, is a special spelling is
returned as the value of that spelling with no message. -/
theorem parsePercent_of_special (values : Values) (key : String) (required : Bool)
    (v : F64) (h : special (ReplaceAll (TrimSpace (values.get key))).data = some v) :
    parsePercent values key required = (v, "") := by
  have hraw : TrimSpace (values.get key) ≠ "" := by
    intro h0
    rw [h0] at h
    have hn : special (ReplaceAll "").data = none := by decide
    rw [hn] at h
    exact absurd h (by simp)
  have hp : ParseFloat (ReplaceAll (TrimSpace (values.get key))) = some v := by
    unfold ParseFloat
    dsimp only
    rw [h]
  simp [parsePercent, hraw, hp]

/-- C11 (as amended): a present field whose text `ParseFloat` rejects, such as
`abc` or `1.2.3`, gives zero with the non-numeric message naming the key. Every
special spelling is let through with no message: the trimmed text with commas
replaced that spells `nan` in any letter case gives NaN, one that spells `inf` or
`infinity` in any letter case, bare or after `+`, gives the positive infinity, and
after `-` the negative infinity; `foldCase` identifies exactly a letter and its
capital. Conversely a value returned with no message is finite unless the text is
one of these spellings. -/
theorem parsePercent_nonNumeric (values : Values) (key : String) (required : Bool) :
    (TrimSpace (values.get key) ≠ "" →
      ParseFloat (ReplaceAll (TrimSpace (values.get key))) = none →
      parsePercent values key required
        = (F64.fin 0, "Поле " ++ key ++ " має бути числом.")) ∧
    ((ReplaceAll (TrimSpace (values.get key))).data.map foldCase = ['n', 'a', 'n'] →
      parsePercent values key required = (F64.nan, "")) ∧
    (∀ t : List Char,
      ((ReplaceAll (TrimSpace (values.get key))).data = t ∨
        (ReplaceAll (TrimSpace (values.get key))).data = '+' :: t) →
      (t.map foldCase = ['i', 'n', 'f'] ∨
        t.map foldCase = ['i', 'n', 'f', 'i', 'n', 'i', 't', 'y']) →
      parsePercent values key required = (F64.posInf, "")) ∧
    (∀ t : List Char,
      (ReplaceAll (TrimSpace (values.get key))).data = '-' :: t →
      (t.map foldCase = ['i', 'n', 'f'] ∨
        t.map foldCase = ['i', 'n', 'f', 'i', 'n', 'i', 't', 'y']) →
      parsePercent values key required = (F64.negInf, "")) ∧
    (∀ v : F64, parsePercent values key required = (v, "") →
      v.isFinite = true ∨
      (v = F64.nan ∧
        (ReplaceAll (TrimSpace (values.get key))).data.map foldCase = ['n', 'a', 'n']) ∨
      (v = F64.posInf ∧ ∃ t : List Char,
        ((ReplaceAll (TrimSpace (values.get key))).data = t ∨
          (ReplaceAll (TrimSpace (values.get key))).data = '+' :: t) ∧
        (t.map foldCase = ['i', 'n', 'f'] ∨
          t.map foldCase = ['i', 'n', 'f', 'i', 'n', 'i', 't', 'y'])) ∨
      (v = F64.negInf ∧ ∃ t : List Char,
        (ReplaceAll (TrimSpace (values.get key))).data = '-' :: t ∧
        (t.map foldCase = ['i', 'n', 'f'] ∨
          t.map foldCase = ['i', 'n', 'f', 'i', 'n', 'i', 't', 'y']))) ∧
    (∀ c : Char,
      (foldCase c = 'i' ↔ c = 'i' ∨ c = 'I') ∧
      (foldCase c = 'n' ↔ c = 'n' ∨ c = 'N') ∧
      (foldCase c = 'f' ↔ c = 'f' ∨ c = 'F') ∧
      (foldCase c = 'a' ↔ c = 'a' ∨ c = 'A') ∧
      (foldCase c = 't' ↔ c = 't' ∨ c = 'T') ∧
      (foldCase c = 'y' ↔ c = 'y' ∨ c = 'Y')) ∧
    parsePercent [(key, "abc")] key required
      = (F64.fin 0, "Поле " ++ key ++ " має бути числом.") ∧
    parsePercent [(key, "1.2.3")] key required
      = (F64.fin 0, "Поле " ++ key ++ " має бути числом.") ∧
    parsePercent [(key, "NaN")] key required = (F64.nan, "") ∧
    parsePercent [(key, "Inf")] key required = (F64.posInf, "") := by
  refine ⟨fun h1 h2 => parsePercent_of_nonNumeric values key required ⟨h1, h2⟩, ?_,
    ?_, ?_, ?_, foldCase_letter, ?_, ?_, ?_, ?_⟩
  · intro h
    exact parsePercent_of_special values key required F64.nan
      ((special_iff _ _).2 (Or.inl ⟨rfl, h⟩))
  · intro t ht hb
    exact parsePercent_of_special values key required F64.posInf
      ((special_iff _ _).2 (Or.inr (Or.inl ⟨rfl, t, ht, hb⟩)))
  · intro t ht hb
    exact parsePercent_of_special values key required F64.negInf
      ((special_iff _ _).2 (Or.inr (Or.inr ⟨rfl, t, ht, hb⟩)))
  · intro v hv
    have hfin : v.isFinite = true ∨
        special (ReplaceAll (TrimSpace (values.get key))).data = some v := by
      unfold parsePercent at hv
      by_cases hraw : TrimSpace (values.get key) = ""
      · rw [if_pos hraw] at hv
        left
        cases required with
        | true =>
          rw [if_pos rfl] at hv
          rw [← (Prod.mk.inj hv).1]
          rfl
        | false =>
          rw [if_neg (by decide)] at hv
          rw [← (Prod.mk.inj hv).1]
          rfl
      · rw [if_neg hraw] at hv
        dsimp only at hv
        cases hp : ParseFloat (ReplaceAll (TrimSpace (values.get key))) with
        | none =>
          rw [hp] at hv
          left
          rw [← (Prod.mk.inj hv).1]
          rfl
        | some u =>
          rw [hp] at hv
          have hu : u = v := (Prod.mk.inj hv).1
          rw [← hu]
          exact ParseFloat_some _ u hp
    rcases hfin with hfin | hsp
    · exact Or.inl hfin
    · exact Or.inr ((special_iff _ _).1 hsp)
  · exact parsePercent_of_nonNumeric _ key required
      ⟨by rw [Values.get_singleton]; decide, by rw [Values.get_singleton]; decide!⟩
  · exact parsePercent_of_nonNumeric _ key required
      ⟨by rw [Values.get_singleton]; decide, by rw [Values.get_singleton]; decide!⟩
  · exact parsePercent_singleton key _ "NaN" required _ (by decide) (by decide) (by decide!)
  · exact parsePercent_singleton key _ "Inf" required _ (by decide) (by decide) (by decide!)

/-- Texts for C11 under the key `W`: `abc` and `1.2.3` are rejected; ` nAn `,
`+INFINITY` and `-iNf` are let through as NaN and the two infinities; and the value
of `8` is finite. -/
theorem parsePercent_nonNumeric_witness :
    parsePercent [("W", "abc")] "W" true = (F64.fin 0, "Поле W має бути числом.") ∧
    parsePercent [("W", "1.2.3")] "W" true = (F64.fin 0, "Поле W має бути числом.") ∧
    parsePercent [("W", " nAn ")] "W" true = (F64.nan, "") ∧
    parsePercent [("W", "+INFINITY")] "W" true = (F64.posInf, "") ∧
    parsePercent [("W", "iNf")] "W" true = (F64.posInf, "") ∧
    parsePercent [("W", "-iNf")] "W" true = (F64.negInf, "") ∧
    F64.isFinite (F64.fin 8) = true :=
  ⟨(parsePercent_nonNumeric [("W", "abc")] "W" true).1 (by decide) (by decide!),
   (parsePercent_nonNumeric [("W", "1.2.3")] "W" true).1 (by decide) (by decide!),
   (parsePercent_nonNumeric [("W", " nAn ")] "W" true).2.1 (by decide),
   (parsePercent_nonNumeric [("W", "+INFINITY")] "W" true).2.2.1
     ['I', 'N', 'F', 'I', 'N', 'I', 'T', 'Y'] (Or.inr (by decide)) (Or.inr (by decide)),
   (parsePercent_nonNumeric [("W", "iNf")] "W" true).2.2.1
     ['i', 'N', 'f'] (Or.inl (by decide)) (Or.inl (by decide)),
   (parsePercent_nonNumeric [("W", "-iNf")] "W" true).2.2.2.1
     ['i', 'N', 'f'] (by decide) (Or.inl (by decide)),
   ((parsePercent_nonNumeric [("W", "8")] "W" true).2.2.2.2.1 (F64.fin 8)
     (by decide!)).elim id (fun h => h.elim (fun h1 => absurd h1.1 (by decide))
       (fun h => h.elim (fun h2 => absurd h2.1 (by decide))
         (fun h3 => absurd h3.1 (by decide))))⟩

/-- C11, the claim as stated fails: the texts `NaN` and `Inf` are not finite
decimal numbers, yet `parsePercent` returns them as values with no message, and
the values are not finite. -/
theorem parsePercent_nan_inf_counterexample :
    parsePercent [("W", "NaN")] "W" true = (F64.nan, "") ∧
    F64.isFinite F64.nan = false ∧
    parsePercent [("W", " inf ")] "W" true = (F64.posInf, "") ∧
    parsePercent [("W", "-Infinity")] "W" true = (F64.negInf, "") ∧
    F64.isFinite F64.posInf = false ∧ F64.isFinite F64.negInf = false := by
  decide!

/-! ## Arithmetic with the special values -/

namespace F64

theorem add_def (x y : F64) : x + y = add x y := rfl

theorem sub_def (x y : F64) : x - y = add x (neg y) := rfl

theorem mul_def (x y : F64) : x * y = mul x y := rfl

theorem div_def (x y : F64) : x / y = div x y := rfl

theorem le_def (x y : F64) : x ≤ y ↔ ble x y = true := Iff.rfl

theorem infOfSign_pos {s : ℚ} (h : 0 < s) : infOfSign s = posInf := by
  simp [infOfSign, h, ne_of_gt h]

theorem infOfSign_neg {s : ℚ} (h : 0 < s) : infOfSign (-s) = negInf := by
  have h1 : ¬ (s < 0) := not_lt.mpr h.le
  simp [infOfSign, h1, ne_of_gt h]

theorem infOfSign_zero : infOfSign 0 = nan := by
  simp [infOfSign]

/-- The first denominator of Task 1 after the check on `W`: a positive number, the
positive infinity, or NaN. -/
theorem den_of_not_ge (W : F64) (h : ¬ W ≥ fin 100) :
    (∃ q : ℚ, 0 < q ∧ fin 100 - W = fin q) ∨ fin 100 - W = posInf ∨ fin 100 - W = nan := by
  rw [ge_iff_le, le_def] at h
  cases W with
  | fin w =>
    left
    refine ⟨100 - w, ?_, fin_sub_fin 100 w⟩
    simp only [ble, decide_eq_true_eq, not_le] at h
    linarith
  | posInf => exact absurd rfl h
  | negInf => exact Or.inr (Or.inl rfl)
  | nan => exact Or.inr (Or.inr rfl)

/-- The second denominator of Task 1 after both checks: a positive number, the
positive infinity, or NaN. -/
theorem den2_of_not_ge (W A : F64) (h1 : ¬ W ≥ fin 100) (h2 : ¬ W + A ≥ fin 100) :
    (∃ q : ℚ, 0 < q ∧ fin 100 - W - A = fin q) ∨ fin 100 - W - A = posInf ∨
      fin 100 - W - A = nan := by
  rw [ge_iff_le, le_def] at h1 h2
  cases W with
  | fin w =>
    cases A with
    | fin a =>
      left
      refine ⟨100 - w - a, ?_, by rw [fin_sub_fin, fin_sub_fin]⟩
      simp only [add_def, add, ble, decide_eq_true_eq, not_le] at h2
      linarith
    | posInf => exact absurd rfl h2
    | negInf => exact Or.inr (Or.inl rfl)
    | nan => exact Or.inr (Or.inr rfl)
  | posInf => exact absurd rfl h1
  | negInf =>
    cases A with
    | fin a => exact Or.inr (Or.inl rfl)
    | posInf => exact Or.inr (Or.inr rfl)
    | negInf => exact Or.inr (Or.inl rfl)
    | nan => exact Or.inr (Or.inr rfl)
  | nan => exact Or.inr (Or.inr rfl)

/-- Scaling by `100 / d` distributes over a sum, for every denominator that passes
the checks. -/
theorem scale_add (d x y : F64)
    (hd : (∃ q : ℚ, 0 < q ∧ d = fin q) ∨ d = posInf ∨ d = nan) :
    x * (fin 100 / d) + y * (fin 100 / d) = (x + y) * (fin 100 / d) := by
  rcases hd with ⟨q, hq, rfl⟩ | rfl | rfl
  · have hq0 : q ≠ 0 := ne_of_gt hq
    have hk : (0 : ℚ) < 100 / q := by positivity
    have hk0 : (100 : ℚ) / q ≠ 0 := ne_of_gt hk
    rw [fin_div_fin 100 q hq0]
    cases x <;> cases y <;>
      simp [add_def, mul_def, add, mul, infOfSign_pos hk, infOfSign_neg hk, add_mul]
  · cases x <;> cases y <;>
      simp [add_def, mul_def, div_def, add, mul, div, infOfSign_zero]
  · cases x <;> cases y <;> simp [add_def, mul_def, div_def, add, mul, div]

/-- Scaling by `100 / d` is multiplying by 100 and dividing by `d`, for every
denominator that passes the checks. -/
theorem scale_eq (d x : F64)
    (hd : (∃ q : ℚ, 0 < q ∧ d = fin q) ∨ d = posInf ∨ d = nan) :
    x * (fin 100 / d) = x * fin 100 / d := by
  rcases hd with ⟨q, hq, rfl⟩ | rfl | rfl
  · have hq0 : q ≠ 0 := ne_of_gt hq
    have hk : (0 : ℚ) < 100 / q := by positivity
    have hk0 : (100 : ℚ) / q ≠ 0 := ne_of_gt hk
    rw [fin_div_fin 100 q hq0]
    have h100 : (0 : ℚ) < 100 := by norm_num
    cases x <;>
      simp [mul_def, div_def, mul, div, infOfSign_pos hk, infOfSign_neg hk,
        infOfSign_pos h100, infOfSign_neg h100, hq0, not_lt.mpr (le_of_lt hq),
        mul_div_assoc]
  · have h100 : (0 : ℚ) < 100 := by norm_num
    cases x <;>
      simp [mul_def, div_def, mul, div, infOfSign_zero, infOfSign_pos h100,
        infOfSign_neg h100]
  · have h100 : (0 : ℚ) < 100 := by norm_num
    cases x <;>
      simp [mul_def, div_def, mul, div, infOfSign_pos h100, infOfSign_neg h100]

end F64

/-! ## Accepted inputs -/

/-- An accepted Task 1 input passed both checks, and the fields of its result are
the values computed from the parsed fields. -/
theorem calcTask1_accepted (values : Values) (H C S N O W A : F64) (r : ResultData)
    (hH : parsePercent values "H" true = (H, ""))
    (hC : parsePercent values "C" true = (C, ""))
    (hS : parsePercent values "S" true = (S, ""))
    (hN : parsePercent values "N" true = (N, ""))
    (hO : parsePercent values "O" true = (O, ""))
    (hW : parsePercent values "W" true = (W, ""))
    (hA : parsePercent values "A" true = (A, ""))
    (hacc : (calcTask1 values).1 = some r) :
    ¬ W ≥ F64.fin 100 ∧ ¬ W + A ≥ F64.fin 100 ∧
    r.KRS = F64.fin 100 / (F64.fin 100 - W) ∧
    r.KRG = F64.fin 100 / (F64.fin 100 - W - A) ∧
    r.HS = H * (F64.fin 100 / (F64.fin 100 - W)) ∧
    r.CS = C * (F64.fin 100 / (F64.fin 100 - W)) ∧
    r.SS = S * (F64.fin 100 / (F64.fin 100 - W)) ∧
    r.NS = N * (F64.fin 100 / (F64.fin 100 - W)) ∧
    r.OS = O * (F64.fin 100 / (F64.fin 100 - W)) ∧
    r.AS = A * (F64.fin 100 / (F64.fin 100 - W)) ∧
    r.HG = H * (F64.fin 100 / (F64.fin 100 - W - A)) ∧
    r.CG = C * (F64.fin 100 / (F64.fin 100 - W - A)) ∧
    r.SG = S * (F64.fin 100 / (F64.fin 100 - W - A)) ∧
    r.NG = N * (F64.fin 100 / (F64.fin 100 - W - A)) ∧
    r.OG = O * (F64.fin 100 / (F64.fin 100 - W - A)) ∧
    r.QrMJ = (F64.fin 339 * C + F64.fin 1030 * H - F64.fin (1088 / 10) * (O - S)
        - F64.fin 25 * W) / F64.fin 1000 ∧
    r.QsMJ = ((F64.fin 339 * C + F64.fin 1030 * H - F64.fin (1088 / 10) * (O - S)
        - F64.fin 25 * W + F64.fin (25 / 1000) * W) * F64.fin 100 / (F64.fin 100 - W))
        / F64.fin 1000 ∧
    r.QgMJ = ((F64.fin 339 * C + F64.fin 1030 * H - F64.fin (1088 / 10) * (O - S)
        - F64.fin 25 * W + F64.fin (25 / 1000) * W) * F64.fin 100
        / (F64.fin 100 - W - A)) / F64.fin 1000 := by
  have h := calcTask1_of_parsed values H C S N O W A hH hC hS hN hO hW hA
  rw [h] at hacc
  by_cases h1 : W ≥ F64.fin 100
  · rw [if_pos h1] at hacc
    exact absurd hacc (by simp)
  · rw [if_neg h1] at hacc
    by_cases h2 : W + A ≥ F64.fin 100
    · rw [if_pos h2] at hacc
      exact absurd hacc (by simp)
    · rw [if_neg h2] at hacc
      simp only [Option.some.injEq] at hacc
      subst hacc
      exact ⟨h1, h2, rfl, rfl, rfl, rfl, rfl, rfl, rfl, rfl, rfl, rfl, rfl, rfl, rfl, rfl,
        rfl, rfl⟩

/-- An accepted Task 2 input passed the check, and the fields of its result are the
values computed from the parsed fields. -/
theorem calcTask2_accepted (values : Values) (H C S O W A V Qg : F64) (r : ResultData)
    (hH : parsePercent values "H" true = (H, ""))
    (hC : parsePercent values "C" true = (C, ""))
    (hS : parsePercent values "S" true = (S, ""))
    (hO : parsePercent values "O" true = (O, ""))
    (hW : parsePercent values "W" true = (W, ""))
    (hA : parsePercent values "A" true = (A, ""))
    (hV : parsePercent values "V" true = (V, ""))
    (hQ : parsePercent values "Qg" true = (Qg, ""))
    (hacc : (calcTask2 values).1 = some r) :
    ¬ W + A ≥ F64.fin 100 ∧
    r.KGR = (F64.fin 100 - W - A) / F64.fin 100 ∧
    r.HR = H * ((F64.fin 100 - W - A) / F64.fin 100) ∧
    r.CR = C * ((F64.fin 100 - W - A) / F64.fin 100) ∧
    r.SR = S * ((F64.fin 100 - W - A) / F64.fin 100) ∧
    r.OR = O * ((F64.fin 100 - W - A) / F64.fin 100) ∧
    r.AR = A * ((F64.fin 100 - W - A) / F64.fin 100) ∧
    r.VRmg = V * ((F64.fin 100 - W - A) / F64.fin 100) := by
  have h := calcTask2_of_parsed values H C S O W A V Qg hH hC hS hO hW hA hV hQ
  rw [h] at hacc
  by_cases h1 : W + A ≥ F64.fin 100
  · rw [if_pos h1] at hacc
    exact absurd hacc (by simp)
  · rw [if_neg h1] at hacc
    simp only [Option.some.injEq] at hacc
    subst hacc
    exact ⟨h1, rfl, rfl, rfl, rfl, rfl, rfl, rfl⟩

/-! ## Relations between the outputs of Task 1 -/

/-- C12: for every accepted Task 1 input, with fields parsed to `H C S N O W A`,
the dry-basis values add up to `(H + C + S + N + O + A) * 100 / (100 - W)` and the
combustible-basis values to `(H + C + S + N + O) * 100 / (100 - W - A)`. -/
theorem calcTask1_sum_conservation (values : Values) (H C S N O W A : F64)
    (r : ResultData)
    (hH : parsePercent values "H" true = (H, ""))
    (hC : parsePercent values "C" true = (C, ""))
    (hS : parsePercent values "S" true = (S, ""))
    (hN : parsePercent values "N" true = (N, ""))
    (hO : parsePercent values "O" true = (O, ""))
    (hW : parsePercent values "W" true = (W, ""))
    (hA : parsePercent values "A" true = (A, ""))
    (hacc : (calcTask1 values).1 = some r) :
    r.HS + r.CS + r.SS + r.NS + r.OS + r.AS
      = (H + C + S + N + O + A) * F64.fin 100 / (F64.fin 100 - W) ∧
    r.HG + r.CG + r.SG + r.NG + r.OG
      = (H + C + S + N + O) * F64.fin 100 / (F64.fin 100 - W - A) := by
  obtain ⟨h1, h2, -, -, e1, e2, e3, e4, e5, e6, e7, e8, e9, e10, e11, -, -, -⟩ :=
    calcTask1_accepted values H C S N O W A r hH hC hS hN hO hW hA hacc
  have d1 := F64.den_of_not_ge W h1
  have d2 := F64.den2_of_not_ge W A h1 h2
  constructor
  · rw [e1, e2, e3, e4, e5, e6, F64.scale_add _ _ _ d1, F64.scale_add _ _ _ d1,
      F64.scale_add _ _ _ d1, F64.scale_add _ _ _ d1, F64.scale_add _ _ _ d1,
      F64.scale_eq _ _ d1]
  · rw [e7, e8, e9, e10, e11, F64.scale_add _ _ _ d2, F64.scale_add _ _ _ d2,
      F64.scale_add _ _ _ d2, F64.scale_add _ _ _ d2, F64.scale_eq _ _ d2]

/-- Scenario S1 for C12: the dry-basis values add up to `96 * 100 / 92` and the
combustible-basis values to `76 * 100 / 72`. -/
theorem calcTask1_sum_conservation_witness :
    ∃ r : ResultData, (calcTask1 s1).1 = some r ∧
      r.HS + r.CS + r.SS + r.NS + r.OS + r.AS = F64.fin (96 * 100 / 92) ∧
      r.HG + r.CG + r.SG + r.NG + r.OG = F64.fin (76 * 100 / 72) := by
  have hacc : (calcTask1 s1).1 = some ((calcTask1 s1).1.getD {}) := by decide!
  obtain ⟨h1, h2⟩ :=
    calcTask1_sum_conservation s1 (F64.fin 4) (F64.fin 60) (F64.fin 1) (F64.fin 1)
      (F64.fin 10) (F64.fin 8) (F64.fin 20) _ (by decide!) (by decide!) (by decide!)
      (by decide!) (by decide!) (by decide!) (by decide!) hacc
  exact ⟨_, hacc, h1.trans (by decide!), h2.trans (by decide!)⟩

/-- What the two checks of Task 1 mean for finite values. -/
theorem lt_of_not_ge_fin (w a : ℚ) (h1 : ¬ F64.fin w ≥ F64.fin 100)
    (h2 : ¬ F64.fin w + F64.fin a ≥ F64.fin 100) : w < 100 ∧ w + a < 100 := by
  rw [ge_iff_le, F64.fin_le_fin, not_le] at h1
  rw [F64.fin_add_fin, ge_iff_le, F64.fin_le_fin, not_le] at h2
  exact ⟨h1, h2⟩

/-- C13 (as amended): for every accepted Task 1 input whose `W` and `A` are finite
numbers, `K_rs * (100 - W) = 100` and `K_rg * (100 - W - A) = 100`. -/
theorem calcTask1_coefficient_identity (values : Values) (H C S N O : F64) (w a : ℚ)
    (r : ResultData)
    (hH : parsePercent values "H" true = (H, ""))
    (hC : parsePercent values "C" true = (C, ""))
    (hS : parsePercent values "S" true = (S, ""))
    (hN : parsePercent values "N" true = (N, ""))
    (hO : parsePercent values "O" true = (O, ""))
    (hW : parsePercent values "W" true = (F64.fin w, ""))
    (hA : parsePercent values "A" true = (F64.fin a, ""))
    (hacc : (calcTask1 values).1 = some r) :
    r.KRS * (F64.fin 100 - F64.fin w) = F64.fin 100 ∧
    r.KRG * (F64.fin 100 - F64.fin w - F64.fin a) = F64.fin 100 := by
  obtain ⟨h1, h2, e1, e2, -⟩ :=
    calcTask1_accepted values H C S N O (F64.fin w) (F64.fin a) r hH hC hS hN hO hW hA hacc
  obtain ⟨k1, k2⟩ := lt_of_not_ge_fin w a h1 h2
  have n1 : (100 : ℚ) - w ≠ 0 := ne_of_gt (by linarith only [k1])
  have n2 : (100 : ℚ) - w - a ≠ 0 := ne_of_gt (by linarith only [k2])
  constructor
  · rw [e1, F64.fin_sub_fin, F64.fin_div_fin _ _ n1, F64.fin_mul_fin,
      div_mul_cancel₀ _ n1]
  · rw [e2, F64.fin_sub_fin, F64.fin_sub_fin, F64.fin_div_fin _ _ n2, F64.fin_mul_fin,
      div_mul_cancel₀ _ n2]

/-- Scenario S1 for C13: `(100/92) * 92 = 100` and `(100/72) * 72 = 100`. -/
theorem calcTask1_coefficient_identity_witness :
    ∃ r : ResultData, (calcTask1 s1).1 = some r ∧
      r.KRS = F64.fin (100 / 92) ∧ r.KRG = F64.fin (100 / 72) ∧
      r.KRS * (F64.fin 100 - F64.fin 8) = F64.fin 100 ∧
      r.KRG * (F64.fin 100 - F64.fin 8 - F64.fin 20) = F64.fin 100 := by
  have hacc : (calcTask1 s1).1 = some ((calcTask1 s1).1.getD {}) := by decide!
  obtain ⟨h1, h2⟩ :=
    calcTask1_coefficient_identity s1 (F64.fin 4) (F64.fin 60) (F64.fin 1) (F64.fin 1)
      (F64.fin 10) 8 20 _ (by decide!) (by decide!) (by decide!) (by decide!) (by decide!)
      (by decide!) (by decide!) hacc
  exact ⟨_, hacc, by decide!, by decide!, h1, h2⟩

/-- C13, the claim as stated fails: with the text `NaN` for `W` the input is
accepted, since both comparisons are false on NaN, and `K_rs * (100 - W)` and
`K_rg * (100 - W - A)` are NaN, not 100. -/
theorem calcTask1_coefficient_nan_counterexample :
    parsePercent s1NaNW "W" true = (F64.nan, "") ∧
    parsePercent s1NaNW "A" true = (F64.fin 20, "") ∧
    ∃ r : ResultData, calcTask1 s1NaNW = (some r, "") ∧
      r.KRS * (F64.fin 100 - F64.nan) = F64.nan ∧
      r.KRS * (F64.fin 100 - F64.nan) ≠ F64.fin 100 ∧
      r.KRG * (F64.fin 100 - F64.nan - F64.fin 20) ≠ F64.fin 100 :=
  ⟨by decide!, by decide!, (calcTask1 s1NaNW).1.getD {}, by decide!, by decide!, by decide!,
    by decide!⟩

/-! ## The boundary cases of Task 1 -/

/-- Multiplying by one changes nothing, special values included. -/
theorem F64.mul_one_eq (x : F64) : x * F64.fin 1 = x := by
  have h1 : (0 : ℚ) < 1 := by norm_num
  cases x <;> simp [F64.mul_def, F64.mul, F64.infOfSign_pos h1, F64.infOfSign_neg h1]

/-- Adding zero changes nothing, special values included. -/
theorem F64.add_zero_eq (x : F64) : x + F64.fin 0 = x := by
  cases x <;> simp [F64.add_def, F64.add]

/-- Multiplying by 100 and dividing by 100 changes nothing, special values
included. -/
theorem F64.mul_div_hundred (x : F64) : x * F64.fin 100 / F64.fin 100 = x := by
  have h100 : (0 : ℚ) < 100 := by norm_num
  cases x <;>
    simp [F64.mul_def, F64.div_def, F64.mul, F64.div, F64.infOfSign_pos h100,
      F64.infOfSign_neg h100]

/-- C14 (as amended): in exact arithmetic, for every Task 1 input with `W = 0` and
`A = 0`, whatever the element values, the result has `K_rs = K_rg = 1`, each
dry-basis and combustible-basis element equal to the input, `A_s = 0` and
`Q_s = Q_g = Q_r`. -/
theorem calcTask1_no_moisture_no_ash (values : Values) (H C S N O : F64)
    (hH : parsePercent values "H" true = (H, ""))
    (hC : parsePercent values "C" true = (C, ""))
    (hS : parsePercent values "S" true = (S, ""))
    (hN : parsePercent values "N" true = (N, ""))
    (hO : parsePercent values "O" true = (O, ""))
    (hW : parsePercent values "W" true = (F64.fin 0, ""))
    (hA : parsePercent values "A" true = (F64.fin 0, "")) :
    ∃ r : ResultData, calcTask1 values = (some r, "") ∧
      r.KRS = F64.fin 1 ∧ r.KRG = F64.fin 1 ∧
      r.HS = H ∧ r.HG = H ∧ r.CS = C ∧ r.CG = C ∧ r.SS = S ∧ r.SG = S ∧
      r.NS = N ∧ r.NG = N ∧ r.OS = O ∧ r.OG = O ∧
      r.AS = F64.fin 0 ∧ r.QsMJ = r.QrMJ ∧ r.QgMJ = r.QrMJ := by
  have h := calcTask1_of_parsed values H C S N O (F64.fin 0) (F64.fin 0) hH hC hS hN hO hW hA
  have c1 : ¬ F64.fin 0 ≥ F64.fin 100 := by decide!
  have c2 : ¬ F64.fin 0 + F64.fin 0 ≥ F64.fin 100 := by decide!
  rw [if_neg c1, if_neg c2] at h
  have k1 : F64.fin 100 / (F64.fin 100 - F64.fin 0) = F64.fin 1 := by decide!
  have k2 : F64.fin 100 / (F64.fin 100 - F64.fin 0 - F64.fin 0) = F64.fin 1 := by decide!
  have d1 : F64.fin 100 - F64.fin 0 = F64.fin 100 := by decide!
  have d2 : F64.fin 100 - F64.fin 0 - F64.fin 0 = F64.fin 100 := by decide!
  have z : F64.fin (25 / 1000) * F64.fin 0 = F64.fin 0 := by decide!
  refine ⟨_, h, k1, k2, ?_, ?_, ?_, ?_, ?_, ?_, ?_, ?_, ?_, ?_, ?_, ?_, ?_⟩
  · show H * (F64.fin 100 / (F64.fin 100 - F64.fin 0)) = H
    rw [k1, F64.mul_one_eq]
  · show H * (F64.fin 100 / (F64.fin 100 - F64.fin 0 - F64.fin 0)) = H
    rw [k2, F64.mul_one_eq]
  · show C * (F64.fin 100 / (F64.fin 100 - F64.fin 0)) = C
    rw [k1, F64.mul_one_eq]
  · show C * (F64.fin 100 / (F64.fin 100 - F64.fin 0 - F64.fin 0)) = C
    rw [k2, F64.mul_one_eq]
  · show S * (F64.fin 100 / (F64.fin 100 - F64.fin 0)) = S
    rw [k1, F64.mul_one_eq]
  · show S * (F64.fin 100 / (F64.fin 100 - F64.fin 0 - F64.fin 0)) = S
    rw [k2, F64.mul_one_eq]
  · show N * (F64.fin 100 / (F64.fin 100 - F64.fin 0)) = N
    rw [k1, F64.mul_one_eq]
  · show N * (F64.fin 100 / (F64.fin 100 - F64.fin 0 - F64.fin 0)) = N
    rw [k2, F64.mul_one_eq]
  · show O * (F64.fin 100 / (F64.fin 100 - F64.fin 0)) = O
    rw [k1, F64.mul_one_eq]
  · show O * (F64.fin 100 / (F64.fin 100 - F64.fin 0 - F64.fin 0)) = O
    rw [k2, F64.mul_one_eq]
  · show F64.fin 0 * (F64.fin 100 / (F64.fin 100 - F64.fin 0)) = F64.fin 0
    decide!
  · show ((F64.fin 339 * C + F64.fin 1030 * H - F64.fin (1088 / 10) * (O - S)
        - F64.fin 25 * F64.fin 0 + F64.fin (25 / 1000) * F64.fin 0) * F64.fin 100
        / (F64.fin 100 - F64.fin 0)) / F64.fin 1000
      = (F64.fin 339 * C + F64.fin 1030 * H - F64.fin (1088 / 10) * (O - S)
        - F64.fin 25 * F64.fin 0) / F64.fin 1000
    rw [z, d1, F64.add_zero_eq, F64.mul_div_hundred]
  · show ((F64.fin 339 * C + F64.fin 1030 * H - F64.fin (1088 / 10) * (O - S)
        - F64.fin 25 * F64.fin 0 + F64.fin (25 / 1000) * F64.fin 0) * F64.fin 100
        / (F64.fin 100 - F64.fin 0 - F64.fin 0)) / F64.fin 1000
      = (F64.fin 339 * C + F64.fin 1030 * H - F64.fin (1088 / 10) * (O - S)
        - F64.fin 25 * F64.fin 0) / F64.fin 1000
    rw [z, d2, F64.add_zero_eq, F64.mul_div_hundred]

/-- Scenario S1 with `W = 0` and `A = 0` for C14: both coefficients are 1, the
elements are unchanged and the three heating values are 23.4808. -/
theorem calcTask1_no_moisture_no_ash_witness :
    ∃ r : ResultData, calcTask1 s1NoWA = (some r, "") ∧
      r.KRS = F64.fin 1 ∧ r.KRG = F64.fin 1 ∧
      r.HS = F64.fin 4 ∧ r.HG = F64.fin 4 ∧ r.CS = F64.fin 60 ∧ r.CG = F64.fin 60 ∧
      r.SS = F64.fin 1 ∧ r.SG = F64.fin 1 ∧ r.NS = F64.fin 1 ∧ r.NG = F64.fin 1 ∧
      r.OS = F64.fin 10 ∧ r.OG = F64.fin 10 ∧
      r.AS = F64.fin 0 ∧ r.QsMJ = r.QrMJ ∧ r.QgMJ = r.QrMJ ∧
      r.QrMJ = F64.fin (234808 / 10000) := by
  obtain ⟨r, hr, h⟩ :=
    calcTask1_no_moisture_no_ash s1NoWA (F64.fin 4) (F64.fin 60) (F64.fin 1) (F64.fin 1)
      (F64.fin 10) (by decide!) (by decide!) (by decide!) (by decide!) (by decide!)
      (by decide!) (by decide!)
  have e : ((calcTask1 s1NoWA).1.getD {}).QrMJ = F64.fin (234808 / 10000) := by decide!
  rw [hr] at e
  obtain ⟨h1, h2, h3, h4, h5, h6, h7, h8, h9, h10, h11, h12, h13, h14, h15⟩ := h
  exact ⟨r, hr, h1, h2, h3, h4, h5, h6, h7, h8, h9, h10, h11, h12, h13, h14, h15, e⟩

/-- C14, the claim as stated fails in binary64 arithmetic: with `W = 0`, `A = 0`,
`H = 5`, `C = 50.4`, `S = 1`, `N = 1` and `O = 10` the coefficients are 1 and `Q_r`
is the binary64 number nearest to 21.2564, but `Q_s` and `Q_g`, which go through
a multiplication by 100 and a division by 100, differ from `Q_r`. -/
theorem calcTask1Float_no_moisture_counterexample :
    parsePercentFloat noWAFloat "W" true = (B64.lit 0, "") ∧
    parsePercentFloat noWAFloat "A" true = (B64.lit 0, "") ∧
    ∃ r : ResultData, calcTask1Float noWAFloat = (some r, "") ∧
      r.KRS = F64.fin 1 ∧ r.KRG = F64.fin 1 ∧
      r.QrMJ = round64 (212564 / 10000) ∧
      r.QsMJ ≠ r.QrMJ ∧ r.QgMJ ≠ r.QrMJ :=
  ⟨by decide!, by decide!, (calcTask1Float noWAFloat).1.getD {}, by decide!, by decide!,
    by decide!, by decide!, by decide!, by decide!⟩

/-- C16, the code at scenario S1: the formula of `Q_r_kJ` subtracts `25 W = 200`,
the correction adds back `0.025 W = 0.2` only, so `Q_r_kJ + 0.025 W` is `23281`
and not `339 C + 1030 H - 108.8 (O - S) = 23480.8`; the emitted `Q_s` and `Q_g` are
`23281 * 100 / 92 / 1000` and `23281 * 100 / 72 / 1000`, not the values without a
moisture term. -/
theorem calcTask1_moisture_term_s1 :
    F64.fin 339 * F64.fin 60 + F64.fin 1030 * F64.fin 4
        - F64.fin (1088 / 10) * (F64.fin 10 - F64.fin 1) = F64.fin (234808 / 10) ∧
    F64.fin 339 * F64.fin 60 + F64.fin 1030 * F64.fin 4
        - F64.fin (1088 / 10) * (F64.fin 10 - F64.fin 1) - F64.fin 25 * F64.fin 8
        + F64.fin (25 / 1000) * F64.fin 8 = F64.fin 23281 ∧
    ∃ r : ResultData, calcTask1 s1 = (some r, "") ∧
      r.QsMJ = F64.fin (23281 * 100 / 92 / 1000) ∧
      r.QsMJ ≠ F64.fin (234808 / 10 * 100 / 92 / 1000) ∧
      r.QgMJ = F64.fin (23281 * 100 / 72 / 1000) ∧
      r.QgMJ ≠ F64.fin (234808 / 10 * 100 / 72 / 1000) :=
  ⟨by decide!, by decide!, (calcTask1 s1).1.getD {}, by decide!, by decide!, by decide!,
    by decide!, by decide!⟩

/-! ## The range of the accepted values -/

/-- When `calcTask1` returns a result, each of its seven fields was parsed with no
message. -/
theorem calcTask1_parsed_of_result (values : Values) (r : ResultData) :
    (calcTask1 values).1 = some r →
    ∃ H C S N O W A : F64,
      parsePercent values "H" true = (H, "") ∧ parsePercent values "C" true = (C, "") ∧
      parsePercent values "S" true = (S, "") ∧ parsePercent values "N" true = (N, "") ∧
      parsePercent values "O" true = (O, "") ∧ parsePercent values "W" true = (W, "") ∧
      parsePercent values "A" true = (A, "") := by
  unfold calcTask1
  rcases parsePercent values "H" true with ⟨H, e1⟩
  rcases parsePercent values "C" true with ⟨C, e2⟩
  rcases parsePercent values "S" true with ⟨S, e3⟩
  rcases parsePercent values "N" true with ⟨N, e4⟩
  rcases parsePercent values "O" true with ⟨O, e5⟩
  rcases parsePercent values "W" true with ⟨W, e6⟩
  rcases parsePercent values "A" true with ⟨A, e7⟩
  dsimp only
  by_cases h1 : e1 = ""
  swap
  · rw [if_pos h1]
    intro h
    exact absurd h (by simp)
  subst h1
  rw [if_neg (fun h => h rfl)]
  by_cases h2 : e2 = ""
  swap
  · rw [if_pos h2]
    intro h
    exact absurd h (by simp)
  subst h2
  rw [if_neg (fun h => h rfl)]
  by_cases h3 : e3 = ""
  swap
  · rw [if_pos h3]
    intro h
    exact absurd h (by simp)
  subst h3
  rw [if_neg (fun h => h rfl)]
  by_cases h4 : e4 = ""
  swap
  · rw [if_pos h4]
    intro h
    exact absurd h (by simp)
  subst h4
  rw [if_neg (fun h => h rfl)]
  by_cases h5 : e5 = ""
  swap
  · rw [if_pos h5]
    intro h
    exact absurd h (by simp)
  subst h5
  rw [if_neg (fun h => h rfl)]
  by_cases h6 : e6 = ""
  swap
  · rw [if_pos h6]
    intro h
    exact absurd h (by simp)
  subst h6
  rw [if_neg (fun h => h rfl)]
  by_cases h7 : e7 = ""
  swap
  · rw [if_pos h7]
    intro h
    exact absurd h (by simp)
  subst h7
  intro _
  exact ⟨H, C, S, N, O, W, A, rfl, rfl, rfl, rfl, rfl, rfl, rfl⟩

/-- When `calcTask2` returns a result, each of its eight fields was parsed with no
message. -/
theorem calcTask2_parsed_of_result (values : Values) (r : ResultData) :
    (calcTask2 values).1 = some r →
    ∃ H C S O W A V Qg : F64,
      parsePercent values "H" true = (H, "") ∧ parsePercent values "C" true = (C, "") ∧
      parsePercent values "S" true = (S, "") ∧ parsePercent values "O" true = (O, "") ∧
      parsePercent values "W" true = (W, "") ∧ parsePercent values "A" true = (A, "") ∧
      parsePercent values "V" true = (V, "") ∧
      parsePercent values "Qg" true = (Qg, "") := by
  unfold calcTask2
  rcases parsePercent values "H" true with ⟨H, e1⟩
  rcases parsePercent values "C" true with ⟨C, e2⟩
  rcases parsePercent values "S" true with ⟨S, e3⟩
  rcases parsePercent values "O" true with ⟨O, e4⟩
  rcases parsePercent values "W" true with ⟨W, e5⟩
  rcases parsePercent values "A" true with ⟨A, e6⟩
  rcases parsePercent values "V" true with ⟨V, e7⟩
  rcases parsePercent values "Qg" true with ⟨Qg, e8⟩
  dsimp only
  by_cases h1 : e1 = ""
  swap
  · rw [if_pos h1]
    intro h
    exact absurd h (by simp)
  subst h1
  rw [if_neg (fun h => h rfl)]
  by_cases h2 : e2 = ""
  swap
  · rw [if_pos h2]
    intro h
    exact absurd h (by simp)
  subst h2
  rw [if_neg (fun h => h rfl)]
  by_cases h3 : e3 = ""
  swap
  · rw [if_pos h3]
    intro h
    exact absurd h (by simp)
  subst h3
  rw [if_neg (fun h => h rfl)]
  by_cases h4 : e4 = ""
  swap
  · rw [if_pos h4]
    intro h
    exact absurd h (by simp)
  subst h4
  rw [if_neg (fun h => h rfl)]
  by_cases h5 : e5 = ""
  swap
  · rw [if_pos h5]
    intro h
    exact absurd h (by simp)
  subst h5
  rw [if_neg (fun h => h rfl)]
  by_cases h6 : e6 = ""
  swap
  · rw [if_pos h6]
    intro h
    exact absurd h (by simp)
  subst h6
  rw [if_neg (fun h => h rfl)]
  by_cases h7 : e7 = ""
  swap
  · rw [if_pos h7]
    intro h
    exact absurd h (by simp)
  subst h7
  rw [if_neg (fun h => h rfl)]
  by_cases h8 : e8 = ""
  swap
  · rw [if_pos h8]
    intro h
    exact absurd h (by simp)
  subst h8
  intro _
  exact ⟨H, C, S, O, W, A, V, Qg, rfl, rfl, rfl, rfl, rfl, rfl, rfl, rfl⟩

/-- Against a number, the negation of `>=` is `<` on every value but NaN. -/
theorem F64.not_ge_iff_lt (x : F64) (q : ℚ) (hx : x ≠ F64.nan) :
    ¬ x ≥ F64.fin q ↔ x < F64.fin q := by
  show ¬ F64.ble (F64.fin q) x = true ↔ F64.blt x (F64.fin q) = true
  cases x with
  | fin v => simp [F64.ble, F64.blt]
  | posInf => simp [F64.ble, F64.blt]
  | negInf => simp [F64.ble, F64.blt]
  | nan => exact absurd rfl hx

/-- C17 (as amended): `calcTask1` returns a result exactly when its seven fields
parse and the parsed `W` and `A` pass the two checks, whatever the values of `H`,
`C`, `S`, `N`, `O`; when `W` and `W + A` are not NaN the checks are `W < 100` and
`W + A < 100`, and finite `W` and `A` of an accepted input satisfy them as numbers.
`calcTask2` returns a result exactly when its eight fields parse and `W + A` passes
its check, whatever the values of `H`, `C`, `S`, `O`, `V`, `Qg`; when `W + A` is not
NaN the check is `W + A < 100`. No other bound is enforced. -/
theorem calcTask_accepted_range (values : Values) :
    ((∃ r : ResultData, calcTask1 values = (some r, "")) ↔
      ∃ H C S N O W A : F64,
        parsePercent values "H" true = (H, "") ∧ parsePercent values "C" true = (C, "") ∧
        parsePercent values "S" true = (S, "") ∧ parsePercent values "N" true = (N, "") ∧
        parsePercent values "O" true = (O, "") ∧ parsePercent values "W" true = (W, "") ∧
        parsePercent values "A" true = (A, "") ∧
        ¬ W ≥ F64.fin 100 ∧ ¬ W + A ≥ F64.fin 100) ∧
    (∀ W A : F64, parsePercent values "W" true = (W, "") →
      parsePercent values "A" true = (A, "") → W ≠ F64.nan → W + A ≠ F64.nan →
      ((∃ r : ResultData, calcTask1 values = (some r, "")) ↔
        (∃ H C S N O : F64,
          parsePercent values "H" true = (H, "") ∧
          parsePercent values "C" true = (C, "") ∧
          parsePercent values "S" true = (S, "") ∧
          parsePercent values "N" true = (N, "") ∧
          parsePercent values "O" true = (O, "")) ∧
        W < F64.fin 100 ∧ W + A < F64.fin 100)) ∧
    (∀ w a : ℚ, parsePercent values "W" true = (F64.fin w, "") →
      parsePercent values "A" true = (F64.fin a, "") →
      (∃ r : ResultData, calcTask1 values = (some r, "")) → w < 100 ∧ w + a < 100) ∧
    ((∃ r : ResultData, calcTask2 values = (some r, "")) ↔
      ∃ H C S O W A V Qg : F64,
        parsePercent values "H" true = (H, "") ∧ parsePercent values "C" true = (C, "") ∧
        parsePercent values "S" true = (S, "") ∧ parsePercent values "O" true = (O, "") ∧
        parsePercent values "W" true = (W, "") ∧ parsePercent values "A" true = (A, "") ∧
        parsePercent values "V" true = (V, "") ∧
        parsePercent values "Qg" true = (Qg, "") ∧
        ¬ W + A ≥ F64.fin 100) ∧
    (∀ W A : F64, parsePercent values "W" true = (W, "") →
      parsePercent values "A" true = (A, "") → W + A ≠ F64.nan →
      ((∃ r : ResultData, calcTask2 values = (some r, "")) ↔
        (∃ H C S O V Qg : F64,
          parsePercent values "H" true = (H, "") ∧
          parsePercent values "C" true = (C, "") ∧
          parsePercent values "S" true = (S, "") ∧
          parsePercent values "O" true = (O, "") ∧
          parsePercent values "V" true = (V, "") ∧
          parsePercent values "Qg" true = (Qg, "")) ∧
        W + A < F64.fin 100)) ∧
    (∀ w a : ℚ, parsePercent values "W" true = (F64.fin w, "") →
      parsePercent values "A" true = (F64.fin a, "") →
      (∃ r : ResultData, calcTask2 values = (some r, "")) → w + a < 100) := by
  have t1 : (∃ r : ResultData, calcTask1 values = (some r, "")) ↔
      ∃ H C S N O W A : F64,
        parsePercent values "H" true = (H, "") ∧ parsePercent values "C" true = (C, "") ∧
        parsePercent values "S" true = (S, "") ∧ parsePercent values "N" true = (N, "") ∧
        parsePercent values "O" true = (O, "") ∧ parsePercent values "W" true = (W, "") ∧
        parsePercent values "A" true = (A, "") ∧
        ¬ W ≥ F64.fin 100 ∧ ¬ W + A ≥ F64.fin 100 := by
    constructor
    · rintro ⟨r, hr⟩
      have hacc : (calcTask1 values).1 = some r := by rw [hr]
      obtain ⟨H, C, S, N, O, W, A, hH, hC, hS, hN, hO, hW, hA⟩ :=
        calcTask1_parsed_of_result values r hacc
      obtain ⟨h1, h2, -⟩ :=
        calcTask1_accepted values H C S N O W A r hH hC hS hN hO hW hA hacc
      exact ⟨H, C, S, N, O, W, A, hH, hC, hS, hN, hO, hW, hA, h1, h2⟩
    · rintro ⟨H, C, S, N, O, W, A, hH, hC, hS, hN, hO, hW, hA, h1, h2⟩
      rw [calcTask1_of_parsed values H C S N O W A hH hC hS hN hO hW hA, if_neg h1,
        if_neg h2]
      exact ⟨_, rfl⟩
  have t2 : (∃ r : ResultData, calcTask2 values = (some r, "")) ↔
      ∃ H C S O W A V Qg : F64,
        parsePercent values "H" true = (H, "") ∧ parsePercent values "C" true = (C, "") ∧
        parsePercent values "S" true = (S, "") ∧ parsePercent values "O" true = (O, "") ∧
        parsePercent values "W" true = (W, "") ∧ parsePercent values "A" true = (A, "") ∧
        parsePercent values "V" true = (V, "") ∧
        parsePercent values "Qg" true = (Qg, "") ∧
        ¬ W + A ≥ F64.fin 100 := by
    constructor
    · rintro ⟨r, hr⟩
      have hacc : (calcTask2 values).1 = some r := by rw [hr]
      obtain ⟨H, C, S, O, W, A, V, Qg, hH, hC, hS, hO, hW, hA, hV, hQ⟩ :=
        calcTask2_parsed_of_result values r hacc
      obtain ⟨h1, -⟩ :=
        calcTask2_accepted values H C S O W A V Qg r hH hC hS hO hW hA hV hQ hacc
      exact ⟨H, C, S, O, W, A, V, Qg, hH, hC, hS, hO, hW, hA, hV, hQ, h1⟩
    · rintro ⟨H, C, S, O, W, A, V, Qg, hH, hC, hS, hO, hW, hA, hV, hQ, h1⟩
      rw [calcTask2_of_parsed values H C S O W A V Qg hH hC hS hO hW hA hV hQ, if_neg h1]
      exact ⟨_, rfl⟩
  refine ⟨t1, ?_, ?_, t2, ?_, ?_⟩
  · intro W A hw ha nW nWA
    rw [t1]
    constructor
    · rintro ⟨H, C, S, N, O, W', A', hH, hC, hS, hN, hO, hW, hA, h1, h2⟩
      have eW : W' = W := by
        rw [hw] at hW
        exact (Prod.mk.inj hW).1.symm
      have eA : A' = A := by
        rw [ha] at hA
        exact (Prod.mk.inj hA).1.symm
      rw [eW] at h1 h2
      rw [eA] at h2
      exact ⟨⟨H, C, S, N, O, hH, hC, hS, hN, hO⟩, (F64.not_ge_iff_lt W 100 nW).1 h1,
        (F64.not_ge_iff_lt (W + A) 100 nWA).1 h2⟩
    · rintro ⟨⟨H, C, S, N, O, hH, hC, hS, hN, hO⟩, k1, k2⟩
      exact ⟨H, C, S, N, O, W, A, hH, hC, hS, hN, hO, hw, ha, F64.not_ge_of_lt k1,
        F64.not_ge_of_lt k2⟩
  · rintro w a hw ha ⟨r, hr⟩
    have hacc : (calcTask1 values).1 = some r := by rw [hr]
    obtain ⟨H, C, S, N, O, W, A, hH, hC, hS, hN, hO, -, -⟩ :=
      calcTask1_parsed_of_result values r hacc
    obtain ⟨h1, h2, -⟩ :=
      calcTask1_accepted values H C S N O (F64.fin w) (F64.fin a) r hH hC hS hN hO hw ha
        hacc
    exact lt_of_not_ge_fin w a h1 h2
  · intro W A hw ha nWA
    rw [t2]
    constructor
    · rintro ⟨H, C, S, O, W', A', V, Qg, hH, hC, hS, hO, hW, hA, hV, hQ, h1⟩
      have eW : W' = W := by
        rw [hw] at hW
        exact (Prod.mk.inj hW).1.symm
      have eA : A' = A := by
        rw [ha] at hA
        exact (Prod.mk.inj hA).1.symm
      rw [eW, eA] at h1
      exact ⟨⟨H, C, S, O, V, Qg, hH, hC, hS, hO, hV, hQ⟩,
        (F64.not_ge_iff_lt (W + A) 100 nWA).1 h1⟩
    · rintro ⟨⟨H, C, S, O, V, Qg, hH, hC, hS, hO, hV, hQ⟩, k⟩
      exact ⟨H, C, S, O, W, A, V, Qg, hH, hC, hS, hO, hw, ha, hV, hQ,
        F64.not_ge_of_lt k⟩
  · rintro w a hw ha ⟨r, hr⟩
    have hacc : (calcTask2 values).1 = some r := by rw [hr]
    obtain ⟨H, C, S, O, W, A, V, Qg, hH, hC, hS, hO, -, -, hV, hQ⟩ :=
      calcTask2_parsed_of_result values r hacc
    obtain ⟨h1, -⟩ :=
      calcTask2_accepted values H C S O (F64.fin w) (F64.fin a) V Qg r hH hC hS hO hw ha
        hV hQ hacc
    rw [F64.fin_add_fin, ge_iff_le, F64.fin_le_fin, not_le] at h1
    exact h1

/-- Scenarios S1 and S4 for C17: S1 is accepted by `calcTask1` because `8 < 100` and
`8 + 20 < 100`, and S4 by `calcTask2` because `10 + 15 < 100`; S3 with `W = 60` and
`A = 40` is refused by both because `60 + 40 < 100` is false. -/
theorem calcTask_accepted_range_witness :
    (∃ r : ResultData, calcTask1 s1 = (some r, "")) ∧
    ((8 : ℚ) < 100 ∧ (8 : ℚ) + 20 < 100) ∧
    (∃ r : ResultData, calcTask2 s4 = (some r, "")) ∧
    (10 : ℚ) + 15 < 100 ∧
    (¬ ∃ r : ResultData, calcTask1 s3 = (some r, "")) ∧
    (¬ ∃ r : ResultData, calcTask2 s3 = (some r, "")) :=
  ⟨((calcTask_accepted_range s1).2.1 (F64.fin 8) (F64.fin 20) (by decide!) (by decide!)
      (by decide) (by decide!)).2
      ⟨⟨F64.fin 4, F64.fin 60, F64.fin 1, F64.fin 1, F64.fin 10, by decide!, by decide!,
        by decide!, by decide!, by decide!⟩, by decide!, by decide!⟩,
   (calcTask_accepted_range s1).2.2.1 8 20 (by decide!) (by decide!)
      ⟨(calcTask1 s1).1.getD {}, by decide!⟩,
   ((calcTask_accepted_range s4).2.2.2.2.1 (F64.fin 10) (F64.fin 15) (by decide!)
      (by decide!) (by decide!)).2
      ⟨⟨F64.fin 5, F64.fin 75, F64.fin 2, F64.fin 8, F64.fin 300, F64.fin 30, by decide!,
        by decide!, by decide!, by decide!, by decide!, by decide!⟩, by decide!⟩,
   (calcTask_accepted_range s4).2.2.2.2.2 10 15 (by decide!) (by decide!)
      ⟨(calcTask2 s4).1.getD {}, by decide!⟩,
   fun h => absurd
     ((calcTask_accepted_range s3).2.2.1 60 40 (by decide!) (by decide!) h).2
     (by norm_num),
   fun h => absurd
     ((calcTask_accepted_range s3).2.2.2.2.2 60 40 (by decide!) (by decide!) h)
     (by norm_num)⟩

/-- C17, the claim as stated fails: `calcTask1` returns a result on an input with
`H = -5`, `C = 150`, `S = 100`, `N = -1`, `O = 200`, `W = -10` and `A = 105`, none
of which lies in `[0, 100)`, and `calcTask2` returns a result on an input with
`H = -5`, `C = 150`, `S = 100`, `O = 200`, `W = -30`, `A = 120`, `V = -1` and
`Qg = -30`. -/
theorem calcTask_range_counterexample :
    (∃ r : ResultData, calcTask1 task1OutOfRange = (some r, "")) ∧
    parsePercent task1OutOfRange "H" true = (F64.fin (-5), "") ∧
    ¬ F64.fin 0 ≤ F64.fin (-5) ∧
    parsePercent task1OutOfRange "C" true = (F64.fin 150, "") ∧
    ¬ F64.fin 150 < F64.fin 100 ∧
    parsePercent task1OutOfRange "S" true = (F64.fin 100, "") ∧
    ¬ F64.fin 100 < F64.fin 100 ∧
    parsePercent task1OutOfRange "N" true = (F64.fin (-1), "") ∧
    ¬ F64.fin 0 ≤ F64.fin (-1) ∧
    parsePercent task1OutOfRange "O" true = (F64.fin 200, "") ∧
    ¬ F64.fin 200 < F64.fin 100 ∧
    parsePercent task1OutOfRange "W" true = (F64.fin (-10), "") ∧
    ¬ F64.fin 0 ≤ F64.fin (-10) ∧
    parsePercent task1OutOfRange "A" true = (F64.fin 105, "") ∧
    ¬ F64.fin 105 < F64.fin 100 ∧
    (∃ r : ResultData, calcTask2 task2OutOfRange = (some r, "")) ∧
    parsePercent task2OutOfRange "H" true = (F64.fin (-5), "") ∧
    parsePercent task2OutOfRange "C" true = (F64.fin 150, "") ∧
    parsePercent task2OutOfRange "S" true = (F64.fin 100, "") ∧
    parsePercent task2OutOfRange "O" true = (F64.fin 200, "") ∧
    parsePercent task2OutOfRange "W" true = (F64.fin (-30), "") ∧
    ¬ F64.fin 0 ≤ F64.fin (-30) ∧
    parsePercent task2OutOfRange "A" true = (F64.fin 120, "") ∧
    ¬ F64.fin 120 < F64.fin 100 ∧
    parsePercent task2OutOfRange "V" true = (F64.fin (-1), "") ∧
    ¬ F64.fin (-1) ≥ F64.fin 0 ∧
    parsePercent task2OutOfRange "Qg" true = (F64.fin (-30), "") ∧
    ¬ F64.fin (-30) > F64.fin 0 :=
  ⟨⟨(calcTask1 task1OutOfRange).1.getD {}, by decide!⟩, by decide!, by decide!, by decide!,
    by decide!, by decide!, by decide!, by decide!, by decide!, by decide!, by decide!,
    by decide!, by decide!, by decide!, by decide!,
    ⟨(calcTask2 task2OutOfRange).1.getD {}, by decide!⟩, by decide!, by decide!, by decide!,
    by decide!, by decide!, by decide!, by decide!, by decide!, by decide!, by decide!,
    by decide!, by decide!⟩

/-! ## Growth at the boundary `W + A = 100` -/

/-- The combustible coefficient and heating value of an accepted input with finite
fields, as rational numbers. -/
theorem calcTask1_combustible_fin (values : Values) (h c s n o w a : ℚ) (r : ResultData)
    (hH : parsePercent values "H" true = (F64.fin h, ""))
    (hC : parsePercent values "C" true = (F64.fin c, ""))
    (hS : parsePercent values "S" true = (F64.fin s, ""))
    (hN : parsePercent values "N" true = (F64.fin n, ""))
    (hO : parsePercent values "O" true = (F64.fin o, ""))
    (hW : parsePercent values "W" true = (F64.fin w, ""))
    (hA : parsePercent values "A" true = (F64.fin a, ""))
    (hacc : (calcTask1 values).1 = some r) :
    w < 100 ∧ w + a < 100 ∧
    r.KRG = F64.fin (100 / (100 - w - a)) ∧
    r.QgMJ = F64.fin ((339 * c + 1030 * h - 1088 / 10 * (o - s) - 25 * w
      + 25 / 1000 * w) * 100 / (100 - w - a) / 1000) := by
  obtain ⟨h1, h2, -, e2, -, -, -, -, -, -, -, -, -, -, -, -, -, e18⟩ :=
    calcTask1_accepted values (F64.fin h) (F64.fin c) (F64.fin s) (F64.fin n) (F64.fin o)
      (F64.fin w) (F64.fin a) r hH hC hS hN hO hW hA hacc
  obtain ⟨k1, k2⟩ := lt_of_not_ge_fin w a h1 h2
  have n2 : (100 : ℚ) - w - a ≠ 0 := ne_of_gt (by linarith only [k2])
  have n3 : (1000 : ℚ) ≠ 0 := by norm_num
  refine ⟨k1, k2, ?_, ?_⟩
  · rw [e2, F64.fin_sub_fin, F64.fin_sub_fin, F64.fin_div_fin _ _ n2]
  · rw [e18]
    simp only [F64.fin_mul_fin, F64.fin_add_fin, F64.fin_sub_fin]
    rw [F64.fin_div_fin _ _ n2, F64.fin_div_fin _ _ n3]

/-- C18: for fixed `A` and element values and every bound `M` there is `δ > 0` such
that every input with `W` in `(100 - A - δ, 100 - A)` is accepted when `W < 100`,
and whenever it is accepted has `K_rg > M` and `Q_g_kJ` (1000 times the emitted
`Q_g`) above `M` if the limit of `Q_r_kJ + 0.025 W` is positive, below `M` if it is
negative. -/
theorem calcTask1_boundary_growth (h c s n o a M : ℚ) :
    ∃ δ : ℚ, 0 < δ ∧ ∀ w : ℚ, 100 - a - δ < w → w < 100 - a →
      ∀ values : Values,
        parsePercent values "H" true = (F64.fin h, "") →
        parsePercent values "C" true = (F64.fin c, "") →
        parsePercent values "S" true = (F64.fin s, "") →
        parsePercent values "N" true = (F64.fin n, "") →
        parsePercent values "O" true = (F64.fin o, "") →
        parsePercent values "W" true = (F64.fin w, "") →
        parsePercent values "A" true = (F64.fin a, "") →
        (w < 100 → ∃ r : ResultData, calcTask1 values = (some r, "")) ∧
        ∀ r : ResultData, (calcTask1 values).1 = some r →
          F64.fin M < r.KRG ∧
          ∃ q : ℚ, r.QgMJ = F64.fin (q / 1000) ∧
            (0 < 339 * c + 1030 * h - 1088 / 10 * (o - s) - 25 * (100 - a)
                + 25 / 1000 * (100 - a) → M < q) ∧
            (339 * c + 1030 * h - 1088 / 10 * (o - s) - 25 * (100 - a)
                + 25 / 1000 * (100 - a) < 0 → q < M) := by
  generalize hL : 339 * c + 1030 * h - 1088 / 10 * (o - s) - 25 * (100 - a)
    + 25 / 1000 * (100 - a) = L
  have hm1 : (0 : ℚ) < max M 1 := lt_of_lt_of_le one_pos (le_max_right M 1)
  have hm2 : (0 : ℚ) < max (24975 / 10 - M) 1 :=
    lt_of_lt_of_le one_pos (le_max_right _ 1)
  have hδ2 : (0 : ℚ) < if 0 < L then 100 * L / max M 1
      else if L < 0 then 100 * (-L) / max (24975 / 10 - M) 1 else 1 := by
    split_ifs with p1 p2
    · exact div_pos (by linarith only [p1]) hm1
    · exact div_pos (by linarith only [p2]) hm2
    · exact one_pos
  refine ⟨min (100 / max M 1) (if 0 < L then 100 * L / max M 1
      else if L < 0 then 100 * (-L) / max (24975 / 10 - M) 1 else 1),
    lt_min (div_pos (by norm_num) hm1) hδ2, ?_⟩
  intro w hw1 hw2 values hH hC hS hN hO hW hA
  have hD : 0 < 100 - w - a := by linarith only [hw2]
  have hDδ : 100 - w - a < min (100 / max M 1) (if 0 < L then 100 * L / max M 1
      else if L < 0 then 100 * (-L) / max (24975 / 10 - M) 1 else 1) := by
    linarith only [hw1]
  have hD1 : 100 - w - a < 100 / max M 1 := lt_of_lt_of_le hDδ (min_le_left _ _)
  have hD2 : 100 - w - a < if 0 < L then 100 * L / max M 1
      else if L < 0 then 100 * (-L) / max (24975 / 10 - M) 1 else 1 :=
    lt_of_lt_of_le hDδ (min_le_right _ _)
  constructor
  · intro hw100
    have hp := calcTask1_of_parsed values (F64.fin h) (F64.fin c) (F64.fin s) (F64.fin n)
      (F64.fin o) (F64.fin w) (F64.fin a) hH hC hS hN hO hW hA
    have c1 : ¬ F64.fin w ≥ F64.fin 100 := by
      rw [ge_iff_le, F64.fin_le_fin, not_le]
      exact hw100
    have c2 : ¬ F64.fin w + F64.fin a ≥ F64.fin 100 := by
      rw [F64.fin_add_fin, ge_iff_le, F64.fin_le_fin, not_le]
      linarith only [hw2]
    rw [if_neg c1, if_neg c2] at hp
    exact ⟨_, hp⟩
  · intro r hacc
    obtain ⟨-, -, eK, eQ⟩ :=
      calcTask1_combustible_fin values h c s n o w a r hH hC hS hN hO hW hA hacc
    have hMD : M * (100 - w - a) < 100 := by
      have e1 : (100 - w - a) * max M 1 < 100 := (lt_div_iff₀ hm1).mp hD1
      have e2 : M * (100 - w - a) ≤ max M 1 * (100 - w - a) :=
        mul_le_mul_of_nonneg_right (le_max_left M 1) hD.le
      linarith only [e1, e2]
    refine ⟨?_, _, eQ, ?_, ?_⟩
    · rw [eK, F64.fin_lt_fin, lt_div_iff₀ hD]
      exact hMD
    · intro hpos
      rw [if_pos hpos] at hD2
      have e1 : (100 - w - a) * max M 1 < 100 * L := (lt_div_iff₀ hm1).mp hD2
      have e2 : M * (100 - w - a) ≤ max M 1 * (100 - w - a) :=
        mul_le_mul_of_nonneg_right (le_max_left M 1) hD.le
      rw [lt_div_iff₀ hD]
      have e3 : (339 * c + 1030 * h - 1088 / 10 * (o - s) - 25 * w + 25 / 1000 * w) * 100
          = 100 * L + 24975 / 10 * (100 - w - a) := by
        rw [← hL]
        ring
      rw [e3]
      have e4 : M * (100 - w - a) < 100 * L :=
        lt_of_le_of_lt e2 (by rw [mul_comm]; exact e1)
      linarith only [e4, hD]
    · intro hneg
      rw [if_neg (not_lt.mpr hneg.le), if_pos hneg] at hD2
      have e1 : (100 - w - a) * max (24975 / 10 - M) 1 < 100 * (-L) :=
        (lt_div_iff₀ hm2).mp hD2
      have e2 : (24975 / 10 - M) * (100 - w - a)
          ≤ max (24975 / 10 - M) 1 * (100 - w - a) :=
        mul_le_mul_of_nonneg_right (le_max_left _ 1) hD.le
      rw [div_lt_iff₀ hD]
      have e3 : (339 * c + 1030 * h - 1088 / 10 * (o - s) - 25 * w + 25 / 1000 * w) * 100
          = 100 * L + 24975 / 10 * (100 - w - a) := by
        rw [← hL]
        ring
      rw [e3]
      have e4 : (24975 / 10 - M) * (100 - w - a) < 100 * (-L) :=
        lt_of_le_of_lt e2 (by rw [mul_comm]; exact e1)
      linarith only [e4, hD]

/-- Scenario S1 for C18 with the bound `M = 1000`: some `δ > 0` works for `A = 20`;
and the input with `W = 79.99` has `K_rg = 10000`. -/
theorem calcTask1_boundary_growth_witness :
    (∃ δ : ℚ, 0 < δ ∧ ∀ w : ℚ, 100 - 20 - δ < w → w < 100 - 20 →
      ∀ values : Values,
        parsePercent values "H" true = (F64.fin 4, "") →
        parsePercent values "C" true = (F64.fin 60, "") →
        parsePercent values "S" true = (F64.fin 1, "") →
        parsePercent values "N" true = (F64.fin 1, "") →
        parsePercent values "O" true = (F64.fin 10, "") →
        parsePercent values "W" true = (F64.fin w, "") →
        parsePercent values "A" true = (F64.fin 20, "") →
        (w < 100 → ∃ r : ResultData, calcTask1 values = (some r, "")) ∧
        ∀ r : ResultData, (calcTask1 values).1 = some r →
          F64.fin 1000 < r.KRG ∧
          ∃ q : ℚ, r.QgMJ = F64.fin (q / 1000) ∧
            ((0 : ℚ) < 339 * 60 + 1030 * 4 - 1088 / 10 * (10 - 1) - 25 * (100 - 20)
                + 25 / 1000 * (100 - 20) → 1000 < q) ∧
            (339 * 60 + 1030 * 4 - 1088 / 10 * (10 - 1) - 25 * (100 - 20)
                + 25 / 1000 * (100 - 20) < (0 : ℚ) → q < 1000)) ∧
    parsePercent s1CloseToBound "W" true = (F64.fin (7999 / 100), "") ∧
    ∃ r : ResultData, calcTask1 s1CloseToBound = (some r, "") ∧
      r.KRG = F64.fin 10000 ∧ F64.fin 1000 < r.KRG :=
  ⟨calcTask1_boundary_growth 4 60 1 1 10 20 1000, by decide!,
    (calcTask1 s1CloseToBound).1.getD {}, by decide!, by decide!, by decide!⟩

/-! ## Round trip through Task 2 -/

/-- Scaling by `100 / q` and then by `q / 100` changes nothing when `q` is
positive, special values included. -/
theorem F64.scale_unscale (x : F64) (q : ℚ) (hq : 0 < q) :
    x * (F64.fin 100 / F64.fin q) * (F64.fin q / F64.fin 100) = x := by
  have hq0 : q ≠ 0 := ne_of_gt hq
  have h100 : (100 : ℚ) ≠ 0 := by norm_num
  have k1 : (0 : ℚ) < 100 / q := by positivity
  have k2 : (0 : ℚ) < q / 100 := by positivity
  rw [F64.fin_div_fin _ _ hq0, F64.fin_div_fin _ _ h100]
  cases x with
  | fin v =>
    rw [F64.fin_mul_fin, F64.fin_mul_fin]
    congr 1
    field_simp
  | posInf => simp [F64.mul_def, F64.mul, F64.infOfSign_pos k1, F64.infOfSign_pos k2]
  | negInf => simp [F64.mul_def, F64.mul, F64.infOfSign_neg k1, F64.infOfSign_neg k2]
  | nan => rfl

/-- C19 (as amended): for finite `W` and `A` with `W < 100` and `W + A < 100`, and
every `H C S N O`, Task 1 returns a result whose combustible-basis outputs are the
inputs times `K_rg`; every Task 2 input with the same `W` and `A`, whatever its
other fields, is accepted, with `K_rg * K_gr = 1`; Task 2 returns each element
times `K_gr`; Task 1 outputs `H_g C_g S_g O_g` times that `K_gr` are `H C S O`; so
when the element fields of the Task 2 input are `H_g C_g S_g O_g`, Task 2 returns
`H_r = H`, `C_r = C`, `S_r = S` and `O_r = O`. -/
theorem calcTask2_inverts_calcTask1 (values1 : Values) (H C S N O : F64) (w a : ℚ)
    (h1H : parsePercent values1 "H" true = (H, ""))
    (h1C : parsePercent values1 "C" true = (C, ""))
    (h1S : parsePercent values1 "S" true = (S, ""))
    (h1N : parsePercent values1 "N" true = (N, ""))
    (h1O : parsePercent values1 "O" true = (O, ""))
    (h1W : parsePercent values1 "W" true = (F64.fin w, ""))
    (h1A : parsePercent values1 "A" true = (F64.fin a, ""))
    (hw : w < 100) (hwa : w + a < 100) :
    ∃ r1 : ResultData, calcTask1 values1 = (some r1, "") ∧
      r1.HG = H * r1.KRG ∧ r1.CG = C * r1.KRG ∧ r1.SG = S * r1.KRG ∧
      r1.OG = O * r1.KRG ∧
      ∀ (values2 : Values) (H2 C2 S2 O2 V Qg : F64),
        parsePercent values2 "H" true = (H2, "") →
        parsePercent values2 "C" true = (C2, "") →
        parsePercent values2 "S" true = (S2, "") →
        parsePercent values2 "O" true = (O2, "") →
        parsePercent values2 "W" true = (F64.fin w, "") →
        parsePercent values2 "A" true = (F64.fin a, "") →
        parsePercent values2 "V" true = (V, "") →
        parsePercent values2 "Qg" true = (Qg, "") →
        ∃ r2 : ResultData, calcTask2 values2 = (some r2, "") ∧
          r1.KRG * r2.KGR = F64.fin 1 ∧
          r2.HR = H2 * r2.KGR ∧ r2.CR = C2 * r2.KGR ∧ r2.SR = S2 * r2.KGR ∧
          r2.OR = O2 * r2.KGR ∧
          r1.HG * r2.KGR = H ∧ r1.CG * r2.KGR = C ∧ r1.SG * r2.KGR = S ∧
          r1.OG * r2.KGR = O ∧
          (H2 = r1.HG → r2.HR = H) ∧ (C2 = r1.CG → r2.CR = C) ∧
          (S2 = r1.SG → r2.SR = S) ∧ (O2 = r1.OG → r2.OR = O) := by
  have hq : (0 : ℚ) < 100 - w - a := by linarith only [hwa]
  have hq0 : (100 : ℚ) - w - a ≠ 0 := ne_of_gt hq
  have hden : F64.fin 100 - F64.fin w - F64.fin a = F64.fin (100 - w - a) := by
    rw [F64.fin_sub_fin, F64.fin_sub_fin]
  have c0 : ¬ F64.fin w ≥ F64.fin 100 := by
    rw [ge_iff_le, F64.fin_le_fin, not_le]
    exact hw
  have c1 : ¬ F64.fin w + F64.fin a ≥ F64.fin 100 := by
    rw [F64.fin_add_fin, ge_iff_le, F64.fin_le_fin, not_le]
    exact hwa
  have hp1 := calcTask1_of_parsed values1 H C S N O (F64.fin w) (F64.fin a) h1H h1C h1S
    h1N h1O h1W h1A
  rw [if_neg c0, if_neg c1, hden] at hp1
  refine ⟨_, hp1, rfl, rfl, rfl, rfl, ?_⟩
  intro values2 H2 C2 S2 O2 V Qg h2H h2C h2S h2O h2W h2A h2V h2Q
  have hp := calcTask2_of_parsed values2 H2 C2 S2 O2 (F64.fin w) (F64.fin a)
    V Qg h2H h2C h2S h2O h2W h2A h2V h2Q
  rw [if_neg c1, hden] at hp
  refine ⟨_, hp, ?_, rfl, rfl, rfl, rfl, ?_, ?_, ?_, ?_, ?_, ?_, ?_, ?_⟩
  · show F64.fin 100 / F64.fin (100 - w - a) * (F64.fin (100 - w - a) / F64.fin 100)
      = F64.fin 1
    have h100 : (100 : ℚ) ≠ 0 := by norm_num
    rw [F64.fin_div_fin _ _ hq0, F64.fin_div_fin _ _ h100, F64.fin_mul_fin]
    congr 1
    field_simp
  · exact F64.scale_unscale H _ hq
  · exact F64.scale_unscale C _ hq
  · exact F64.scale_unscale S _ hq
  · exact F64.scale_unscale O _ hq
  · intro e
    rw [e]
    exact F64.scale_unscale H _ hq
  · intro e
    rw [e]
    exact F64.scale_unscale C _ hq
  · intro e
    rw [e]
    exact F64.scale_unscale S _ hq
  · intro e
    rw [e]
    exact F64.scale_unscale O _ hq

/-- Scenario S1 and the inputs `roundTrip1` and `roundTrip2` for C19. With `W = 8`
and `A = 20` Task 1 turns `H = 4` into `H_g = 50/9` with `K_rg = 25/18`, Task 2 on
`s1Back` has `K_rg * K_gr = 1`, and `H_g * K_gr = 4`. With `W = 10` and `A = 40`
Task 1 turns `H = 4` into `H_g = 8`, and Task 2 turns 8 back into 4. -/
theorem calcTask2_inverts_calcTask1_witness :
    (∃ r1 : ResultData, calcTask1 s1 = (some r1, "") ∧
      r1.HG = F64.fin (50 / 9) ∧ r1.KRG = F64.fin (25 / 18) ∧
      ∃ r2 : ResultData, calcTask2 s1Back = (some r2, "") ∧
        r1.KRG * r2.KGR = F64.fin 1 ∧
        r1.HG * r2.KGR = F64.fin 4 ∧ r1.CG * r2.KGR = F64.fin 60 ∧
        r1.SG * r2.KGR = F64.fin 1 ∧ r1.OG * r2.KGR = F64.fin 10) ∧
    ∃ r1 : ResultData, calcTask1 roundTrip1 = (some r1, "") ∧
      r1.HG = F64.fin 8 ∧ r1.KRG = F64.fin 2 ∧
      ∃ r2 : ResultData, calcTask2 roundTrip2 = (some r2, "") ∧
        r1.KRG * r2.KGR = F64.fin 1 ∧
        r2.HR = F64.fin 4 ∧ r2.CR = F64.fin 30 ∧ r2.SR = F64.fin 1 ∧
        r2.OR = F64.fin 5 := by
  constructor
  · obtain ⟨r1, hr1, -, -, -, -, hinner⟩ :=
      calcTask2_inverts_calcTask1 s1 (F64.fin 4) (F64.fin 60) (F64.fin 1) (F64.fin 1)
        (F64.fin 10) 8 20 (by decide!) (by decide!) (by decide!) (by decide!) (by decide!)
        (by decide!) (by decide!) (by norm_num) (by norm_num)
    have eH : ((calcTask1 s1).1.getD {}).HG = F64.fin (50 / 9) := by decide!
    have eK : ((calcTask1 s1).1.getD {}).KRG = F64.fin (25 / 18) := by decide!
    rw [hr1] at eH eK
    obtain ⟨r2, hr2, k, -, -, -, -, gH, gC, gS, gO, -⟩ :=
      hinner s1Back (F64.fin (556 / 100)) (F64.fin (8333 / 100)) (F64.fin (139 / 100))
        (F64.fin (1389 / 100)) (F64.fin 300) (F64.fin 30) (by decide!) (by decide!)
        (by decide!) (by decide!) (by decide!) (by decide!) (by decide!) (by decide!)
    exact ⟨r1, hr1, eH, eK, r2, hr2, k, gH, gC, gS, gO⟩
  · obtain ⟨r1, hr1, -, -, -, -, hinner⟩ :=
      calcTask2_inverts_calcTask1 roundTrip1 (F64.fin 4) (F64.fin 30) (F64.fin 1)
        (F64.fin 1) (F64.fin 5) 10 40 (by decide!) (by decide!) (by decide!) (by decide!)
        (by decide!) (by decide!) (by decide!) (by norm_num) (by norm_num)
    have eH : ((calcTask1 roundTrip1).1.getD {}).HG = F64.fin 8 := by decide!
    have eC : ((calcTask1 roundTrip1).1.getD {}).CG = F64.fin 60 := by decide!
    have eS : ((calcTask1 roundTrip1).1.getD {}).SG = F64.fin 2 := by decide!
    have eO : ((calcTask1 roundTrip1).1.getD {}).OG = F64.fin 10 := by decide!
    have eK : ((calcTask1 roundTrip1).1.getD {}).KRG = F64.fin 2 := by decide!
    rw [hr1] at eH eC eS eO eK
    have eH' : r1.HG = F64.fin 8 := eH
    have eC' : r1.CG = F64.fin 60 := eC
    have eS' : r1.SG = F64.fin 2 := eS
    have eO' : r1.OG = F64.fin 10 := eO
    obtain ⟨r2, hr2, k, -, -, -, -, -, -, -, -, bH, bC, bS, bO⟩ :=
      hinner roundTrip2 (F64.fin 8) (F64.fin 60) (F64.fin 2) (F64.fin 10) (F64.fin 300)
        (F64.fin 30) (by decide!) (by decide!) (by decide!) (by decide!) (by decide!)
        (by decide!) (by decide!) (by decide!)
    exact ⟨r1, hr1, eH, eK, r2, hr2, k, bH eH'.symm, bC eC'.symm, bS eS'.symm,
      bO eO'.symm⟩

/-- C19, the claim as stated fails: the text `-Inf` for `W` satisfies `W < 100` and
`W + A < 100` and is accepted by both tasks; Task 1 gives `K_rg = 0` and
`H_g = 0`, Task 2 gives an infinite `K_gr`, so that `K_rg * K_gr` and `H_r` are
NaN, not 1 and not `H = 4`. -/
theorem calcTask2_round_trip_counterexample :
    parsePercent roundTrip1NegInf "W" true = (F64.negInf, "") ∧
    parsePercent roundTrip1NegInf "A" true = (F64.fin 40, "") ∧
    parsePercent roundTrip1NegInf "H" true = (F64.fin 4, "") ∧
    F64.negInf < F64.fin 100 ∧ F64.negInf + F64.fin 40 < F64.fin 100 ∧
    ∃ r1 : ResultData, calcTask1 roundTrip1NegInf = (some r1, "") ∧
      parsePercent roundTrip2NegInf "H" true = (r1.HG, "") ∧
      parsePercent roundTrip2NegInf "C" true = (r1.CG, "") ∧
      parsePercent roundTrip2NegInf "S" true = (r1.SG, "") ∧
      parsePercent roundTrip2NegInf "O" true = (r1.OG, "") ∧
      parsePercent roundTrip2NegInf "W" true = (F64.negInf, "") ∧
      parsePercent roundTrip2NegInf "A" true = (F64.fin 40, "") ∧
      ∃ r2 : ResultData, calcTask2 roundTrip2NegInf = (some r2, "") ∧
        r1.KRG * r2.KGR = F64.nan ∧ r1.KRG * r2.KGR ≠ F64.fin 1 ∧
        r2.HR = F64.nan ∧ r2.HR ≠ F64.fin 4 :=
  ⟨by decide!, by decide!, by decide!, by decide!, by decide!,
    (calcTask1 roundTrip1NegInf).1.getD {}, by decide!, by decide!, by decide!, by decide!,
    by decide!, by decide!, by decide!,
    (calcTask2 roundTrip2NegInf).1.getD {}, by decide!, by decide!, by decide!, by decide!,
    by decide!⟩

/-! ## Dry basis and combustible basis -/

/-- Scaling by `k1`, then multiplying by 100 and dividing by a positive `d`, is
scaling by `k2 = k1 * 100 / d`, special values included. -/
theorem F64.rescale (x : F64) (k1 d k2 : ℚ) (hk1 : 0 < k1) (hd : 0 < d)
    (hk : k1 * 100 / d = k2) :
    x * F64.fin k1 * F64.fin 100 / F64.fin d = x * F64.fin k2 := by
  have hd0 : d ≠ 0 := ne_of_gt hd
  have h100 : (0 : ℚ) < 100 := by norm_num
  have hk2 : 0 < k2 := by
    rw [← hk]
    positivity
  cases x with
  | fin v =>
    rw [F64.fin_mul_fin, F64.fin_mul_fin, F64.fin_div_fin _ _ hd0, F64.fin_mul_fin, ← hk]
    congr 1
    ring
  | posInf =>
    simp [F64.mul_def, F64.div_def, F64.mul, F64.div, F64.infOfSign_pos hk1,
      F64.infOfSign_pos h100, F64.infOfSign_pos hk2, not_lt.mpr hd.le]
  | negInf =>
    simp [F64.mul_def, F64.div_def, F64.mul, F64.div, F64.infOfSign_neg hk1,
      F64.infOfSign_neg h100, F64.infOfSign_neg hk2, not_lt.mpr hd.le]
  | nan => rfl

/-- C20 (as amended): for every accepted Task 1 input whose `W` and `A` are finite
numbers, the dry-basis ash is below 100, each combustible-basis element is the
dry-basis element times `100 / (100 - A_s)`, and `K_rg = K_rs * 100 / (100 - A_s)`. -/
theorem calcTask1_dry_to_combustible (values : Values) (H C S N O : F64) (w a : ℚ)
    (r : ResultData)
    (hH : parsePercent values "H" true = (H, ""))
    (hC : parsePercent values "C" true = (C, ""))
    (hS : parsePercent values "S" true = (S, ""))
    (hN : parsePercent values "N" true = (N, ""))
    (hO : parsePercent values "O" true = (O, ""))
    (hW : parsePercent values "W" true = (F64.fin w, ""))
    (hA : parsePercent values "A" true = (F64.fin a, ""))
    (hacc : (calcTask1 values).1 = some r) :
    r.AS < F64.fin 100 ∧
    r.HG = r.HS * F64.fin 100 / (F64.fin 100 - r.AS) ∧
    r.CG = r.CS * F64.fin 100 / (F64.fin 100 - r.AS) ∧
    r.SG = r.SS * F64.fin 100 / (F64.fin 100 - r.AS) ∧
    r.NG = r.NS * F64.fin 100 / (F64.fin 100 - r.AS) ∧
    r.OG = r.OS * F64.fin 100 / (F64.fin 100 - r.AS) ∧
    r.KRG = r.KRS * F64.fin 100 / (F64.fin 100 - r.AS) := by
  obtain ⟨h1, h2, e1, e2, eHS, eCS, eSS, eNS, eOS, eAS, eHG, eCG, eSG, eNG, eOG, -⟩ :=
    calcTask1_accepted values H C S N O (F64.fin w) (F64.fin a) r hH hC hS hN hO hW hA hacc
  obtain ⟨k1, k2⟩ := lt_of_not_ge_fin w a h1 h2
  have p1 : (0 : ℚ) < 100 - w := by linarith only [k1]
  have p2 : (0 : ℚ) < 100 - w - a := by linarith only [k2]
  have n1 : (100 : ℚ) - w ≠ 0 := ne_of_gt p1
  have n2 : (100 : ℚ) - w - a ≠ 0 := ne_of_gt p2
  have hk1 : (0 : ℚ) < 100 / (100 - w) := by positivity
  have hd : (0 : ℚ) < 100 - a * (100 / (100 - w)) := by
    have e : 100 - a * (100 / (100 - w)) = 100 * (100 - w - a) / (100 - w) := by
      field_simp
      ring
    rw [e]
    positivity
  have hk : 100 / (100 - w) * 100 / (100 - a * (100 / (100 - w))) = 100 / (100 - w - a) := by
    have e : 100 - a * (100 / (100 - w)) = 100 * (100 - w - a) / (100 - w) := by
      field_simp
      ring
    rw [e]
    field_simp
    ring
  have d1 : F64.fin 100 / (F64.fin 100 - F64.fin w) = F64.fin (100 / (100 - w)) := by
    rw [F64.fin_sub_fin, F64.fin_div_fin _ _ n1]
  have d2 : F64.fin 100 / (F64.fin 100 - F64.fin w - F64.fin a)
      = F64.fin (100 / (100 - w - a)) := by
    rw [F64.fin_sub_fin, F64.fin_sub_fin, F64.fin_div_fin _ _ n2]
  rw [d1] at e1 eHS eCS eSS eNS eOS eAS
  rw [d2] at e2 eHG eCG eSG eNG eOG
  rw [F64.fin_mul_fin] at eAS
  have hden : F64.fin 100 - r.AS = F64.fin (100 - a * (100 / (100 - w))) := by
    rw [eAS, F64.fin_sub_fin]
  refine ⟨?_, ?_, ?_, ?_, ?_, ?_, ?_⟩
  · rw [eAS, F64.fin_lt_fin]
    linarith only [hd]
  · rw [hden, eHG, eHS, F64.rescale H _ _ _ hk1 hd hk]
  · rw [hden, eCG, eCS, F64.rescale C _ _ _ hk1 hd hk]
  · rw [hden, eSG, eSS, F64.rescale S _ _ _ hk1 hd hk]
  · rw [hden, eNG, eNS, F64.rescale N _ _ _ hk1 hd hk]
  · rw [hden, eOG, eOS, F64.rescale O _ _ _ hk1 hd hk]
  · rw [hden, e2, e1, F64.fin_mul_fin, F64.fin_div_fin _ _ (ne_of_gt hd), hk]

/-- Scenario S1 for C20: `A_s = 20 * 100 / 92` is below 100, and the coefficient
`100 / 72` is `100 / 92` times `100 / (100 - A_s)`. -/
theorem calcTask1_dry_to_combustible_witness :
    ∃ r : ResultData, (calcTask1 s1).1 = some r ∧
      r.AS = F64.fin (20 * 100 / 92) ∧ r.AS < F64.fin 100 ∧
      r.HG = r.HS * F64.fin 100 / (F64.fin 100 - r.AS) ∧
      r.KRG = r.KRS * F64.fin 100 / (F64.fin 100 - r.AS) := by
  have hacc : (calcTask1 s1).1 = some ((calcTask1 s1).1.getD {}) := by decide!
  obtain ⟨h1, h2, -, -, -, -, h7⟩ :=
    calcTask1_dry_to_combustible s1 (F64.fin 4) (F64.fin 60) (F64.fin 1) (F64.fin 1)
      (F64.fin 10) 8 20 _ (by decide!) (by decide!) (by decide!) (by decide!) (by decide!)
      (by decide!) (by decide!) hacc
  exact ⟨_, hacc, by decide!, h1, h2, h7⟩

/-- C20, the claim as stated fails: with the text `NaN` for `A` the input is
accepted, since the comparison of `W + A` is false on NaN, and the dry-basis ash is
NaN, which is not below 100. -/
theorem calcTask1_dry_ash_nan_counterexample :
    parsePercent s1NaNA "W" true = (F64.fin 8, "") ∧
    parsePercent s1NaNA "A" true = (F64.nan, "") ∧
    ∃ r : ResultData, calcTask1 s1NaNA = (some r, "") ∧
      r.AS = F64.nan ∧ ¬ r.AS < F64.fin 100 :=
  ⟨by decide!, by decide!, (calcTask1 s1NaNA).1.getD {}, by decide!, by decide!, by decide!⟩

end FuelCalc
